import Mathlib

/-!
# luahs: Lua bindings to hyperscan — verification of `src/luahs/functions.c`

The binding is glue between two collaborators that are not part of the file:
the Lua C API and the hyperscan engine.  The embedding below keeps both
explicit.

* Lua values are a small inductive type (`LuaValue`); the C API calls the
  source uses (`lua_type`, `lua_getfield`, `lua_rawgeti`, `luaL_checkinteger`,
  `luaL_checkstring`, ...) are total functions on it.  A raised Lua error
  (`luaL_error`, `lua_error`, a failed `luaL_check*`) is the `error` side of
  `Except String`.
* The engine is a record of reply functions (`Engine`).  Every function of the
  binding that calls the engine returns, next to its outcome, the list of
  engine calls it made with the argument values it handed over.
* C integer conversions are written out for an LP64 platform: `toInt` (to
  `int`, 32 bits, two's complement), `toUnsigned` (to `unsigned int`),
  `toUnsignedLongLong` (to `unsigned long long`, 64 bits), `toLuaInteger` (to
  `lua_Integer`, 64 bits).  The integer a Lua number holds
  is an unbounded `Int`.
* A loop `for (i = 0; i < rawlen; i++) { lua_rawgeti(L, t, i + 1); ... }` is a
  recursion over the sequence part of the table.
* A local variable that the source reads without having written it is a
  parameter of the embedding (`indet…`): its value is not determined by the
  program.
-/

namespace Luahs

/-! ## C integer conversions -/

/-- Conversion of an integer value to C `int` (32-bit two's complement). -/
def toInt (n : Int) : Int := (n + 2147483648) % 4294967296 - 2147483648

/-- Conversion of an integer value to C `unsigned int` (32 bits). -/
def toUnsigned (n : Int) : Nat := (n % 4294967296).toNat

/-- Conversion of an integer value to C `unsigned long long` (64 bits). -/
def toUnsignedLongLong (n : Int) : Nat := (n % 18446744073709551616).toNat

/-- Conversion of an unsigned C value to `lua_Integer` (64-bit two's
complement), as done by the argument conversion of `lua_pushinteger`. -/
def toLuaInteger (n : Nat) : Int :=
  ((n : Int) + 9223372036854775808) % 18446744073709551616 - 9223372036854775808

/-- Values representable in C `int`. -/
def InIntRange (n : Int) : Prop := -2147483648 ≤ n ∧ n < 2147483648

instance (n : Int) : Decidable (InIntRange n) := by
  unfold InIntRange; exact inferInstance

deriving instance DecidableEq for Except

/-! ## Lua values -/

/-- Basic Lua types, as returned by `lua_type`. -/
inductive LuaType where
  | LUA_TNIL
  | LUA_TBOOLEAN
  | LUA_TLIGHTUSERDATA
  | LUA_TNUMBER
  | LUA_TSTRING
  | LUA_TTABLE
  | LUA_TFUNCTION
  | LUA_TUSERDATA
  | LUA_TTHREAD
  deriving DecidableEq, Repr

/-- The kinds of Lua value whose content the binding never looks at. -/
inductive OpaqueKind where
  | lightuserdata
  | func
  | userdata
  | thread
  deriving DecidableEq, Repr

/-- Lua values.  A number is modelled by its integer value.  A table has a
sequence part (`arr`, the values at keys `1 .. rawlen`) and string-keyed
fields; metatables are not modelled.  Functions, userdata and threads are
opaque and only carry their kind. -/
inductive LuaValue where
  | nil
  | boolean (b : Bool)
  | number (n : Int)
  | string (s : String)
  | table (arr : List LuaValue) (fields : List (String × LuaValue))
  | opaqueValue (kind : OpaqueKind)

/-- Model of `lua_type`. -/
def lua_type : LuaValue → LuaType
  | .nil => .LUA_TNIL
  | .boolean _ => .LUA_TBOOLEAN
  | .number _ => .LUA_TNUMBER
  | .string _ => .LUA_TSTRING
  | .table _ _ => .LUA_TTABLE
  | .opaqueValue .lightuserdata => .LUA_TLIGHTUSERDATA
  | .opaqueValue .func => .LUA_TFUNCTION
  | .opaqueValue .userdata => .LUA_TUSERDATA
  | .opaqueValue .thread => .LUA_TTHREAD

/-- Model of `lua_typename`. -/
def lua_typename : LuaType → String
  | .LUA_TNIL => "nil"
  | .LUA_TBOOLEAN => "boolean"
  | .LUA_TLIGHTUSERDATA => "userdata"
  | .LUA_TNUMBER => "number"
  | .LUA_TSTRING => "string"
  | .LUA_TTABLE => "table"
  | .LUA_TFUNCTION => "function"
  | .LUA_TUSERDATA => "userdata"
  | .LUA_TTHREAD => "thread"

/-- Lookup in the string-keyed part of a table. -/
def lookupField (name : String) : List (String × LuaValue) → LuaValue
  | [] => .nil
  | (k, v) :: rest => if k = name then v else lookupField name rest

/-- Model of `lua_getfield` on a table value (raw access). -/
def lua_getfield (v : LuaValue) (name : String) : LuaValue :=
  match v with
  | .table _ fields => lookupField name fields
  | _ => .nil

/-- Model of `compat_rawlen` (`lua_rawlen` / `lua_objlen`) on a table. -/
def compat_rawlen : LuaValue → Nat
  | .table arr _ => arr.length
  | _ => 0

/-- Coercion of a string to an integer as Lua's `lua_tointeger` performs it;
the conversion itself belongs to the Lua runtime and is a parameter. -/
abbrev StrToInt := String → Option Int

/-- Model of `luaL_checkinteger`: a number yields its integer value, a string
is coerced when the runtime can convert it, anything else is an argument
error. -/
def luaL_checkinteger (cvt : StrToInt) (v : LuaValue) : Except String Int :=
  match v with
  | .number n => .ok n
  | .string s =>
    match cvt s with
    | some n => .ok n
    | none => .error "bad argument (number expected, got string)"
  | w => .error ("bad argument (number expected, got " ++ lua_typename (lua_type w) ++ ")")

/-- Model of `luaL_checkstring`: a string is returned as it is, a number is
converted to its decimal text, anything else is an argument error. -/
def luaL_checkstring (v : LuaValue) : Except String String :=
  match v with
  | .string s => .ok s
  | .number n => .ok (toString n)
  | w => .error ("bad argument (string expected, got " ++ lua_typename (lua_type w) ++ ")")

/-! ## Flags, mode, platform -/

/-- Loop of `toFlags` over the sequence part of a table:
`flags |= luaL_checkinteger(L, -1)` with `flags` of type `int`. -/
def toFlagsLoop (cvt : StrToInt) : List LuaValue → Int → Except String Int
  | [], flags => .ok flags
  | v :: rest, flags =>
    match luaL_checkinteger cvt v with
    | .ok n => toFlagsLoop cvt rest (toInt (Int.lor flags n))
    | .error e => .error e

/-- Embedding of `toFlags(L, index, name)`. -/
def toFlags (cvt : StrToInt) (v : LuaValue) (name : String) : Except String Int :=
  match v with
  | .number n => .ok (toInt n)
  | .table arr _ => toFlagsLoop cvt arr 0
  | .nil => .ok 0
  | w => .error ("Bad type of '" ++ name ++ "': " ++ lua_typename (lua_type w))

/-- Embedding of `toMode(L, index)`. -/
def toMode (v : LuaValue) : Except String Int :=
  match v with
  | .number n => .ok (toInt n)
  | w => .error ("Bad type of 'mode': " ++ lua_typename (lua_type w))

/-- The engine's `hs_platform_info_t`: `tune` is an `unsigned int`, the other
three fields are `unsigned long long`. -/
structure PlatformInfo where
  tune : Nat
  cpu_features : Nat
  reserved1 : Nat
  reserved2 : Nat
  deriving DecidableEq, Repr

/-- Embedding of `toPlatform(L, index, space)`; `none` is the `NULL` pointer.
Each assignment `platform->field = toFlags(...)` converts the `int` result to
the unsigned type of the field. -/
def toPlatform (cvt : StrToInt) (v : LuaValue) : Except String (Option PlatformInfo) :=
  match v with
  | .table arr fields =>
    match toFlags cvt (lua_getfield (.table arr fields) "tune") "tune" with
    | .error e => .error e
    | .ok tune =>
      match toFlags cvt (lua_getfield (.table arr fields) "cpu_features") "cpu_features" with
      | .error e => .error e
      | .ok cpu_features =>
        match toFlags cvt (lua_getfield (.table arr fields) "reserved1") "reserved1" with
        | .error e => .error e
        | .ok reserved1 =>
          match toFlags cvt (lua_getfield (.table arr fields) "reserved2") "reserved2" with
          | .error e => .error e
          | .ok reserved2 =>
            .ok (some {
              tune := toUnsigned tune
              cpu_features := toUnsignedLongLong cpu_features
              reserved1 := toUnsignedLongLong reserved1
              reserved2 := toUnsignedLongLong reserved2 })
  | .nil => .ok none
  | w => .error ("Bad type of 'platform': " ++ lua_typename (lua_type w))

/-! ## The hyperscan engine -/

/-- Success status of every engine call (`hs_error_t`). -/
def HS_SUCCESS : Int := 0

/-- Status with which `hs_scan` returns when the match callback asked it to
stop. -/
def HS_SCAN_TERMINATED : Int := -3

/-- Bits of `hs_expr_ext_t.flags` (`unsigned long long`). -/
def HS_EXT_FLAG_MIN_OFFSET : Nat := 1

/-- Bit marking `max_offset` as set. -/
def HS_EXT_FLAG_MAX_OFFSET : Nat := 2

/-- Bit marking `min_length` as set. -/
def HS_EXT_FLAG_MIN_LENGTH : Nat := 4

/-- An `hs_database_t*` value. -/
abbrev DatabaseHandle := Nat

/-- An `hs_scratch_t*` value. -/
abbrev ScratchHandle := Nat

/-- The diagnostic `hs_compile_error_t` the engine allocates on a failed
compilation. -/
structure hs_compile_error_t where
  message : String
  expression : Int
  deriving DecidableEq, Repr

/-- The engine's record `hs_expr_ext_t` as far as `compileMulti` fills it; all
four fields are `unsigned long long`. -/
structure hs_expr_ext_t where
  flags : Nat
  min_offset : Nat
  max_offset : Nat
  min_length : Nat
  deriving DecidableEq, Repr

/-- What a compile primitive leaves behind: its status, the handle stored
through `&self->db`, and the pointer stored through `compile_err` (`none` when
the engine stored no diagnostic there). -/
structure CompileReply where
  err : Int
  db : DatabaseHandle
  compile_err : Option hs_compile_error_t
  deriving DecidableEq, Repr

/-- Arguments of one invocation of the match callback. -/
structure MatchEvent where
  id : Nat
  from_ : Nat
  to_ : Nat
  flags : Nat
  deriving DecidableEq, Repr

/-- What the engine does during one `hs_scan`: the match events it reports, in
its discovery order, as long as the callback lets it continue, and the status
it ends with after the last of them. -/
structure ScanReply where
  events : List MatchEvent
  err : Int
  deriving DecidableEq, Repr

/-- Result of `hs_serialize_database`: status and the buffer of `length`
bytes. -/
structure SerializeReply where
  err : Int
  bytes : String
  deriving DecidableEq, Repr

/-- Result of `hs_deserialize_database`: status and the handle stored through
`&self->db`. -/
structure DeserializeReply where
  err : Int
  db : DatabaseHandle
  deriving DecidableEq, Repr

/-- The engine primitives the binding calls.  An array argument is a list, a
pointer that may be `NULL` is an `Option`. -/
structure Engine where
  hs_compile : String → Nat → Nat → Option PlatformInfo → CompileReply
  hs_compile_multi : List String → Option (List Nat) → Option (List Nat) → Nat → Nat →
    Option PlatformInfo → CompileReply
  hs_compile_ext_multi : List String → Option (List Nat) → Option (List Nat) →
    List (Option hs_expr_ext_t) → Nat → Nat → Option PlatformInfo → CompileReply
  hs_scan : DatabaseHandle → String → Nat → Nat → ScratchHandle → ScanReply
  hs_serialize_database : DatabaseHandle → SerializeReply
  hs_deserialize_database : String → Nat → DeserializeReply

/-- One call into the engine, with the argument values handed over. -/
inductive EngineCall where
  | hs_compile (expression : String) (flags mode : Nat) (platform : Option PlatformInfo)
  | hs_compile_multi (expressions : List String) (flags ids : Option (List Nat))
      (elements mode : Nat) (platform : Option PlatformInfo)
  | hs_compile_ext_multi (expressions : List String) (flags ids : Option (List Nat))
      (ext : List (Option hs_expr_ext_t)) (elements mode : Nat)
      (platform : Option PlatformInfo)
  | hs_free_compile_error (error : hs_compile_error_t)
  | hs_scan (db : DatabaseHandle) (data : String) (length flags : Nat)
      (scratch : ScratchHandle)
  | hs_serialize_database (db : DatabaseHandle)
  | hs_deserialize_database (bytes : String) (length : Nat)
  deriving DecidableEq, Repr

/-- How a Lua C function ends: it returns a value, it raises a Lua error with
a message, or it dereferences a pointer that points to nothing. -/
inductive Outcome (α : Type) where
  | returned (value : α)
  | raised (msg : String)
  | invalidDereference
  deriving DecidableEq, Repr

/-! ## Multi-expression compilation -/

/-- The two functions passed as `filter` to `getIntegerField`. -/
inductive FilterFunction where
  | luaL_checkinteger
  | toFlagsInMulti
  deriving DecidableEq, Repr

/-- Embedding of `toFlagsInMulti`. -/
def toFlagsInMulti (cvt : StrToInt) (v : LuaValue) : Except String Int :=
  toFlags cvt v "flags"

/-- Call through the `filter` function pointer. -/
def applyFilter (cvt : StrToInt) : FilterFunction → LuaValue → Except String Int
  | .luaL_checkinteger, v => luaL_checkinteger cvt v
  | .toFlagsInMulti, v => toFlagsInMulti cvt v

/-- Embedding of `getIntegerField(L, field_name, result, filter)` on the
pattern table `tbl` at the top of the stack.  `some r` is `has_field = 1` with
`*result = r` (an `int`); `none` is `has_field = 0`, `*result` untouched. -/
def getIntegerField (cvt : StrToInt) (tbl : LuaValue) (field_name : String)
    (filter : FilterFunction) : Except String (Option Int) :=
  let id_type := lua_type (lua_getfield tbl field_name)
  if id_type = .LUA_TNUMBER ∨ (filter = .toFlagsInMulti ∧ id_type = .LUA_TTABLE) then
    match applyFilter cvt filter (lua_getfield tbl field_name) with
    | .ok r => .ok (some (toInt r))
    | .error e => .error e
  else if id_type ≠ .LUA_TNIL then
    .error ("Bad type of arg1.expressions[i]." ++ field_name ++ ": " ++ lua_typename id_type)
  else
    .ok none

/-- The arrays and pointers `compileMulti` builds.  `ids`, `flagss` and `ext`
tell whether the pointer of that name is non-`NULL` (it then points to the
`_space` array).  An entry of `ext_space` is `none` for a `NULL` pointer and
otherwise the record of `ext_storage` it points to. -/
structure MultiArrays where
  expressions : List String
  ids_space : List Nat
  flagss_space : List Nat
  ext_space : List (Option hs_expr_ext_t)
  ids : Bool
  flagss : Bool
  ext : Bool
  deriving DecidableEq, Repr

/-- The arrays after allocation and `memset`; the slots of `expressions` are
yet to be written. -/
def MultiArrays.init (nelements : Nat) : MultiArrays where
  expressions := List.replicate nelements ""
  ids_space := List.replicate nelements 0
  flagss_space := List.replicate nelements 0
  ext_space := List.replicate nelements none
  ids := false
  flagss := false
  ext := false

/-- Bitmask `ext_flags` built from the three `has_field` results. -/
def extFlags (min_offset max_offset min_length : Option Int) : Nat :=
  let f0 : Nat := 0
  let f1 := if min_offset.isSome then f0 ||| HS_EXT_FLAG_MIN_OFFSET else f0
  let f2 := if max_offset.isSome then f1 ||| HS_EXT_FLAG_MAX_OFFSET else f1
  if min_length.isSome then f2 ||| HS_EXT_FLAG_MIN_LENGTH else f2

/-- Body of the `for` loop of `compileMulti` for index `i` and the element `v`
read by `lua_rawgeti(L, -1, i + 1)`.  `indet i k` is the value held by the
`k`-th never-written local (`min_offset`, `max_offset`, `min_length`) of
iteration `i`.  The assignments `ext_storage[i].field = local` convert the
`int` local to the `unsigned long long` field. -/
def compileMultiStep (cvt : StrToInt) (indet : Nat → Nat → Int) (i : Nat) (v : LuaValue)
    (s : MultiArrays) : Except String MultiArrays :=
  match v with
  | .string str => .ok { s with expressions := s.expressions.set i str }
  | .table arr fields => do
    let expression ← luaL_checkstring (lua_getfield (.table arr fields) "expression")
    let id ← getIntegerField cvt (.table arr fields) "id" .luaL_checkinteger
    let flags ← getIntegerField cvt (.table arr fields) "flags" .toFlagsInMulti
    let min_offset ← getIntegerField cvt (.table arr fields) "min_offset" .luaL_checkinteger
    let max_offset ← getIntegerField cvt (.table arr fields) "max_offset" .luaL_checkinteger
    let min_length ← getIntegerField cvt (.table arr fields) "min_length" .luaL_checkinteger
    let s1 := { s with expressions := s.expressions.set i expression }
    let s2 :=
      match id with
      | some r => { s1 with ids := true, ids_space := s1.ids_space.set i (toUnsigned r) }
      | none => s1
    let s3 :=
      match flags with
      | some r => { s2 with flagss := true, flagss_space := s2.flagss_space.set i (toUnsigned r) }
      | none => s2
    let ext_flags := extFlags min_offset max_offset min_length
    if ext_flags ≠ 0 then
      .ok { s3 with
        ext := true
        ext_space := s3.ext_space.set i (some {
          flags := ext_flags
          min_offset := toUnsignedLongLong (min_offset.getD (indet i 0))
          max_offset := toUnsignedLongLong (max_offset.getD (indet i 1))
          min_length := toUnsignedLongLong (min_length.getD (indet i 2)) }) }
    else
      .ok s3
  | w => .error ("Bad type of arg1.expressions[i].expression: " ++ lua_typename (lua_type w))

/-- The `for (i = 0; i < nelements; i++)` loop of `compileMulti`, from index
`i` on, over the remaining elements of the sequence. -/
def compileMultiLoop (cvt : StrToInt) (indet : Nat → Nat → Int) :
    List LuaValue → Nat → MultiArrays → Except String MultiArrays
  | [], _, s => .ok s
  | v :: rest, i, s =>
    match compileMultiStep cvt indet i v s with
    | .ok s' => compileMultiLoop cvt indet rest (i + 1) s'
    | .error e => .error e

/-- Marshalling part of `compileMulti`: type check of the `expressions` value
and the loop filling the arrays. -/
def compileMultiArrays (cvt : StrToInt) (indet : Nat → Nat → Int) (expressions : LuaValue) :
    Except String MultiArrays :=
  match expressions with
  | .table arr _ => compileMultiLoop cvt indet arr 0 (MultiArrays.init arr.length)
  | w => .error ("bad argument (table expected, got " ++ lua_typename (lua_type w) ++ ")")

/-- The engine call `compileMulti` makes once the arrays are built. -/
def compileMultiCall (s : MultiArrays) (nelements mode : Nat) (platform : Option PlatformInfo) :
    EngineCall :=
  let flagss := if s.flagss then some s.flagss_space else none
  let ids := if s.ids then some s.ids_space else none
  if s.ext then
    .hs_compile_ext_multi s.expressions flagss ids s.ext_space nelements mode platform
  else
    .hs_compile_multi s.expressions flagss ids nelements mode platform

/-- Reply of the engine to a compile call. -/
def Engine.compileReply (E : Engine) : EngineCall → CompileReply
  | .hs_compile e f m p => E.hs_compile e f m p
  | .hs_compile_multi es fs ids n m p => E.hs_compile_multi es fs ids n m p
  | .hs_compile_ext_multi es fs ids ext n m p => E.hs_compile_ext_multi es fs ids ext n m p
  | _ => ⟨HS_SUCCESS, 0, none⟩

/-- Embedding of `compileMulti(L, self, mode, platform, &compile_err)` with
the `expressions` value at the top of the stack: a Lua error, or the engine's
reply; next to it the engine calls made. -/
def compileMulti (E : Engine) (cvt : StrToInt) (indet : Nat → Nat → Int)
    (expressions : LuaValue) (mode : Nat) (platform : Option PlatformInfo) :
    Except String CompileReply × List EngineCall :=
  match compileMultiArrays cvt indet expressions with
  | .error e => (.error e, [])
  | .ok s =>
    let call := compileMultiCall s (compat_rawlen expressions) mode platform
    (.ok (E.compileReply call), [call])

/-! ## compile -/

/-- Embedding of `throwCompileError(L, compile_err)`. -/
def throwCompileError (compile_err : Option hs_compile_error_t) :
    Outcome DatabaseHandle × List EngineCall :=
  match compile_err with
  | none => (.invalidDereference, [])
  | some ce =>
    if ce.expression ≥ 0 then
      (.raised ("Unable to compile expression #" ++ toString ce.expression ++ ": " ++ ce.message),
        [.hs_free_compile_error ce])
    else
      (.raised ("Unable to compile expression: " ++ ce.message), [.hs_free_compile_error ce])

/-- Tail of `compile` after the engine replied. -/
def compileFinish (reply : CompileReply) (calls : List EngineCall) :
    Outcome DatabaseHandle × List EngineCall :=
  if reply.err ≠ HS_SUCCESS then
    ((throwCompileError reply.compile_err).1, calls ++ (throwCompileError reply.compile_err).2)
  else
    (.returned reply.db, calls)

/-- A call of one of the three compile primitives. -/
def EngineCall.isCompile : EngineCall → Bool
  | .hs_compile .. => true
  | .hs_compile_multi .. => true
  | .hs_compile_ext_multi .. => true
  | _ => false

/-- Embedding of `compile(L)` with argument `arg1`: the outcome (on success the
handle held by the returned `Database` userdata) and the engine calls made, in
order. -/
def compile (E : Engine) (cvt : StrToInt) (indet : Nat → Nat → Int) (arg1 : LuaValue) :
    Outcome DatabaseHandle × List EngineCall :=
  if lua_type arg1 ≠ .LUA_TTABLE then
    (.raised ("bad argument (table expected, got " ++ lua_typename (lua_type arg1) ++ ")"), [])
  else
    match toMode (lua_getfield arg1 "mode") with
    | .error e => (.raised e, [])
    | .ok mode =>
      match toPlatform cvt (lua_getfield arg1 "platform") with
      | .error e => (.raised e, [])
      | .ok platform =>
        if lua_type (lua_getfield arg1 "expression") ≠ .LUA_TNIL then
          match luaL_checkstring (lua_getfield arg1 "expression") with
          | .error e => (.raised e, [])
          | .ok expression =>
            match toFlags cvt (lua_getfield arg1 "flags") "flags" with
            | .error e => (.raised e, [])
            | .ok flags =>
              compileFinish
                (E.hs_compile expression (toUnsigned flags) (toUnsigned mode) platform)
                [.hs_compile expression (toUnsigned flags) (toUnsigned mode) platform]
        else if lua_type (lua_getfield arg1 "expressions") ≠ .LUA_TNIL then
          match compileMulti E cvt indet (lua_getfield arg1 "expressions") (toUnsigned mode)
              platform with
          | (.error e, calls) => (.raised e, calls)
          | (.ok reply, calls) => compileFinish reply calls
        else
          (.raised "Specify 'expression' or 'expressions'", [])

/-! ## scan -/

/-- One match record `{id = …, from = …, to = …}`; the fields are the Lua
integers pushed by `lua_pushinteger`. -/
structure MatchRecord where
  id : Int
  from_ : Int
  to_ : Int
  deriving DecidableEq, Repr

/-- A Lua table with integer keys, most recent assignment first. -/
abbrev IndexedTable := List (Nat × MatchRecord)

/-- Model of `lua_rawseti(L, t, n)`. -/
def lua_rawseti (t : IndexedTable) (n : Nat) (v : MatchRecord) : IndexedTable :=
  (n, v) :: t

/-- Value of the table at integer key `n` (`none` is `nil`). -/
def IndexedTable.rawget : IndexedTable → Nat → Option MatchRecord
  | [], _ => none
  | (k, v) :: rest, n => if k = n then some v else IndexedTable.rawget rest n

/-- The scan-local `MatchContext`: the results table and the counter. -/
structure MatchContext where
  results_table : IndexedTable
  nresults : Nat
  deriving DecidableEq, Repr

/-- Embedding of `luahs_match_event_handler`: the returned `int` and the
context afterwards. -/
def luahs_match_event_handler (id from_ to_ flags : Nat) (context : MatchContext) :
    Int × MatchContext :=
  let _unused := flags
  let record : MatchRecord :=
    { id := toLuaInteger id, from_ := toLuaInteger from_, to_ := toLuaInteger to_ }
  let nresults := context.nresults + 1
  (0, { results_table := lua_rawseti context.results_table nresults record
        nresults := nresults })

/-- The callback protocol of `hs_scan`: the engine invokes `onEvent` for each
event in turn; a non-zero return stops the scan with `HS_SCAN_TERMINATED`,
otherwise the scan ends with the status `err`.  The last component collects
the values the callback returned. -/
def deliverEvents (onEvent : Nat → Nat → Nat → Nat → MatchContext → Int × MatchContext) :
    List MatchEvent → Int → MatchContext → List Int → Int × MatchContext × List Int
  | [], err, context, returns => (err, context, returns)
  | e :: rest, err, context, returns =>
    if (onEvent e.id e.from_ e.to_ e.flags context).1 ≠ 0 then
      (HS_SCAN_TERMINATED, (onEvent e.id e.from_ e.to_ e.flags context).2,
        returns ++ [(onEvent e.id e.from_ e.to_ e.flags context).1])
    else
      deliverEvents onEvent rest err (onEvent e.id e.from_ e.to_ e.flags context).2
        (returns ++ [(onEvent e.id e.from_ e.to_ e.flags context).1])

/-- Everything observable of one call of `scan`. -/
structure ScanRun where
  outcome : Outcome IndexedTable
  calls : List EngineCall
  handlerReturns : List Int
  deriving DecidableEq, Repr

/-- Embedding of `scan(L)` on a database, a data string and a scratch.
`errorToString` is the binding's status-to-message function, defined outside
this file.  `indetFlags` is the value held by the local `int flags`, which
`scan` declares and never assigns. -/
def scan (E : Engine) (errorToString : Int → String) (indetFlags : Int)
    (db : DatabaseHandle) (data : String) (scratch : ScratchHandle) : ScanRun :=
  let match_context : MatchContext := { results_table := [], nresults := 0 }
  let length := data.length % 4294967296
  let flags := toUnsigned indetFlags
  let reply := E.hs_scan db data length flags scratch
  let run := deliverEvents luahs_match_event_handler reply.events reply.err match_context []
  { outcome :=
      if run.1 ≠ HS_SUCCESS then .raised (errorToString run.1)
      else .returned run.2.1.results_table
    calls := [.hs_scan db data length flags scratch]
    handlerReturns := run.2.2 }

/-! ## serialize / deserialize -/

/-- Embedding of `database_serialize(L)`: the Lua string pushed by
`lua_pushlstring(L, bytes, length)`. -/
def database_serialize (E : Engine) (errorToString : Int → String) (db : DatabaseHandle) :
    Outcome String × List EngineCall :=
  if (E.hs_serialize_database db).err ≠ HS_SUCCESS then
    (.raised (errorToString (E.hs_serialize_database db).err), [.hs_serialize_database db])
  else
    (.returned (E.hs_serialize_database db).bytes, [.hs_serialize_database db])

/-- Model of `luaL_checklstring`: the bytes and, as their count, the length. -/
def luaL_checklstring (v : LuaValue) : Except String (String × Nat) :=
  match luaL_checkstring v with
  | .ok s => .ok (s, s.length)
  | .error e => .error e

/-- Embedding of `deserialize(L)` with argument `arg1`. -/
def deserialize (E : Engine) (errorToString : Int → String) (arg1 : LuaValue) :
    Outcome DatabaseHandle × List EngineCall :=
  match luaL_checklstring arg1 with
  | .error e => (.raised e, [])
  | .ok (bytes, length) =>
    if (E.hs_deserialize_database bytes length).err ≠ HS_SUCCESS then
      (.raised (errorToString (E.hs_deserialize_database bytes length).err),
        [.hs_deserialize_database bytes length])
    else
      (.returned (E.hs_deserialize_database bytes length).db,
        [.hs_deserialize_database bytes length])

/-- The record the handler stores for an event. -/
def recordOf (e : MatchEvent) : MatchRecord :=
  { id := toLuaInteger e.id, from_ := toLuaInteger e.from_, to_ := toLuaInteger e.to_ }

/-- Context after the handler ran on each event of a list in turn. -/
def collectEvents (events : List MatchEvent) (context : MatchContext) : MatchContext :=
  events.foldl (fun c e => (luahs_match_event_handler e.id e.from_ e.to_ e.flags c).2) context

/-! ## Reading a pattern of a batch -/

/-- Whether the pattern `v` has a non-`nil` field `name`. -/
def fieldPresent (v : LuaValue) (name : String) : Bool :=
  decide (lua_type (lua_getfield v name) ≠ .LUA_TNIL)

/-- The integer a pattern supplies in field `name` (`0` when the field holds
no number). -/
def suppliedInteger (v : LuaValue) (name : String) : Int :=
  match lua_getfield v name with
  | .number n => n
  | _ => 0

/-- The flags a pattern supplies in its field `flags`, read as `toFlags` reads
them (`0` when `toFlags` raises). -/
def suppliedFlags (cvt : StrToInt) (v : LuaValue) : Int :=
  match toFlags cvt (lua_getfield v "flags") "flags" with
  | .ok f => f
  | .error _ => 0

/-- Whether the pattern has at least one of `min_offset`, `max_offset`,
`min_length`. -/
def hasConstraint (v : LuaValue) : Bool :=
  fieldPresent v "min_offset" || fieldPresent v "max_offset" || fieldPresent v "min_length"

/-- The expression text of a pattern: the string itself, or the field
`expression` of a pattern table (`""` when `luaL_checkstring` raises). -/
def expressionOf (v : LuaValue) : String :=
  match v with
  | .string str => str
  | w =>
    match luaL_checkstring (lua_getfield w "expression") with
    | .ok e => e
    | .error _ => ""

/-- The `ids` argument of a batch compile call. -/
def EngineCall.idsArg : EngineCall → Option (List Nat)
  | .hs_compile_multi _ _ ids _ _ _ => ids
  | .hs_compile_ext_multi _ _ ids _ _ _ _ => ids
  | _ => none

/-- The `flags` array argument of a batch compile call. -/
def EngineCall.flagsArg : EngineCall → Option (List Nat)
  | .hs_compile_multi _ flags _ _ _ _ => flags
  | .hs_compile_ext_multi _ flags _ _ _ _ _ => flags
  | _ => none

/-- The `ext` argument of `hs_compile_ext_multi`. -/
def EngineCall.extArg : EngineCall → Option (List (Option hs_expr_ext_t))
  | .hs_compile_ext_multi _ _ _ ext _ _ _ => some ext
  | _ => none

/-- Writes `o` at index `i` when it is `some`. -/
def patchAt {α : Type} (arr : List α) (i : Nat) (o : Option α) : List α :=
  match o with
  | some x => arr.set i x
  | none => arr

/-- Applies the optional writes `f j v` for the elements `v` of a list at the
consecutive indices `j` from `i` on. -/
def patchWith {α : Type} (f : Nat → LuaValue → Option α) (arr : List α) :
    Nat → List LuaValue → List α
  | _, [] => arr
  | i, v :: vs => patchWith f (patchAt arr i (f i v)) (i + 1) vs

/-- The write iteration `i` makes to `ids_space`. -/
def idPatch (v : LuaValue) : Option Nat :=
  if fieldPresent v "id" then some (toUnsigned (suppliedInteger v "id")) else none

/-- The write iteration `i` makes to `flagss_space`. -/
def flagsPatch (cvt : StrToInt) (v : LuaValue) : Option Nat :=
  if fieldPresent v "flags" then some (toUnsigned (suppliedFlags cvt v)) else none

/-- The `int` local of name `name` after `getIntegerField`: the supplied value
converted to `int`, or the indeterminate value `u` when the field is absent. -/
def constraintLocal (v : LuaValue) (name : String) (u : Int) : Int :=
  if fieldPresent v name then toInt (suppliedInteger v name) else u

/-- The `has_field` result for the field `name`, as an option. -/
def constraintField (v : LuaValue) (name : String) : Option Int :=
  if fieldPresent v name then some (toInt (suppliedInteger v name)) else none

/-- The write iteration `i` makes to `ext_space`. -/
def extPatch (indet : Nat → Nat → Int) (i : Nat) (v : LuaValue) :
    Option (Option hs_expr_ext_t) :=
  if hasConstraint v then
    some (some {
      flags := extFlags (constraintField v "min_offset") (constraintField v "max_offset")
        (constraintField v "min_length")
      min_offset := toUnsignedLongLong (constraintLocal v "min_offset" (indet i 0))
      max_offset := toUnsignedLongLong (constraintLocal v "max_offset" (indet i 1))
      min_length := toUnsignedLongLong (constraintLocal v "min_length" (indet i 2)) })
  else none

/-- The arrays after a successful iteration `i` on the element `v`. -/
def applyPattern (cvt : StrToInt) (indet : Nat → Nat → Int) (i : Nat) (v : LuaValue)
    (s : MultiArrays) : MultiArrays where
  expressions := s.expressions.set i (expressionOf v)
  ids_space := patchAt s.ids_space i (idPatch v)
  flagss_space := patchAt s.flagss_space i (flagsPatch cvt v)
  ext_space := patchAt s.ext_space i (extPatch indet i v)
  ids := s.ids || fieldPresent v "id"
  flagss := s.flagss || fieldPresent v "flags"
  ext := s.ext || hasConstraint v

/-- The arrays after successful iterations from index `i` on. -/
def applyPatterns (cvt : StrToInt) (indet : Nat → Nat → Int) :
    List LuaValue → Nat → MultiArrays → MultiArrays
  | [], _, s => s
  | v :: rest, i, s => applyPatterns cvt indet rest (i + 1) (applyPattern cvt indet i v s)

/-- Every integer field a pattern has holds a number. -/
def IntegerFieldsAreNumbers (v : LuaValue) : Prop :=
  ∀ name, name = "id" ∨ name = "min_offset" ∨ name = "max_offset" ∨ name = "min_length" →
    fieldPresent v name = true → ∃ n, lua_getfield v name = .number n


/-! ## Concrete engines for evaluation -/

/-- A string coercion that converts nothing. -/
def demoCvt : StrToInt := fun _ => none

/-- Never-written locals all holding `0`. -/
def demoIndet : Nat → Nat → Int := fun _ _ => 0

/-- A batch of a bare string and a pattern table with `id`, a flags collection
and `max_offset`. -/
def demoBatch : List LuaValue :=
  [.string "foo",
   .table [] [("expression", .string "bar"), ("id", .number 20),
     ("flags", .table [.number 1, .number 8] []), ("max_offset", .number 9)]]

/-- The arrays `compileMulti` builds for `demoBatch`. -/
def demoArrays : MultiArrays where
  expressions := ["foo", "bar"]
  ids_space := [0, 20]
  flagss_space := [0, 9]
  ext_space := [none, some ⟨2, 0, 9, 0⟩]
  ids := true
  flagss := true
  ext := true

/-- A compile request for `demoBatch` in mode `1`. -/
def demoRequest : LuaValue :=
  .table [] [("mode", .number 1), ("expressions", .table demoBatch [])]

/-- An engine whose compile primitives succeed with handle 7, whose scan
reports two matches and succeeds, and whose serialisation is a fixed blob
holding a zero byte. -/
def demoEngine : Engine where
  hs_compile := fun _ _ _ _ => ⟨HS_SUCCESS, 7, none⟩
  hs_compile_multi := fun _ _ _ _ _ _ => ⟨HS_SUCCESS, 7, none⟩
  hs_compile_ext_multi := fun _ _ _ _ _ _ _ => ⟨HS_SUCCESS, 7, none⟩
  hs_scan := fun _ _ _ _ _ => ⟨[⟨10, 0, 3, 0⟩, ⟨20, 3, 6, 5⟩], HS_SUCCESS⟩
  hs_serialize_database := fun _ => ⟨HS_SUCCESS, "hs\x00db"⟩
  hs_deserialize_database := fun _ _ => ⟨HS_SUCCESS, 7⟩

/-- An engine whose scan reports one match and then ends with the status
`-1`, and whose compile primitives fail with status `-4` and a diagnostic for
pattern 1. -/
def failingEngine : Engine where
  hs_compile := fun _ _ _ _ => ⟨-4, 0, some ⟨"Missing close parenthesis", -1⟩⟩
  hs_compile_multi := fun _ _ _ _ _ _ => ⟨-4, 0, some ⟨"Missing close parenthesis", 1⟩⟩
  hs_compile_ext_multi := fun _ _ _ _ _ _ _ => ⟨-4, 0, some ⟨"Missing close parenthesis", 1⟩⟩
  hs_scan := fun _ _ _ _ _ => ⟨[⟨10, 0, 3, 0⟩], -1⟩
  hs_serialize_database := fun _ => ⟨-1, ""⟩
  hs_deserialize_database := fun _ _ => ⟨-1, 0⟩

/-- An engine whose compile primitives fail with the status `-2` and store no
diagnostic. -/
def noDiagnosticEngine : Engine where
  hs_compile := fun _ _ _ _ => ⟨-2, 0, none⟩
  hs_compile_multi := fun _ _ _ _ _ _ => ⟨-2, 0, none⟩
  hs_compile_ext_multi := fun _ _ _ _ _ _ _ => ⟨-2, 0, none⟩
  hs_scan := fun _ _ _ _ _ => ⟨[], HS_SUCCESS⟩
  hs_serialize_database := fun _ => ⟨HS_SUCCESS, ""⟩
  hs_deserialize_database := fun _ _ => ⟨HS_SUCCESS, 0⟩

/-- A status-to-message function for evaluation. -/
def demoErrorToString (err : Int) : String := "hyperscan error " ++ toString err

/-! ## Theorems -/

/-! ### Integer conversions -/

theorem toInt_of_inIntRange {n : Int} (h : InIntRange n) : toInt n = n := by
  unfold InIntRange at h
  unfold toInt
  omega

theorem toLuaInteger_of_lt {n : Nat} (h : n < 9223372036854775808) :
    toLuaInteger n = (n : Int) := by
  unfold toLuaInteger
  omega

theorem toUnsigned_toInt (n : Int) : toUnsigned (toInt n) = toUnsigned n := by
  unfold toUnsigned toInt
  congr 1
  omega

theorem toUnsigned_of_lt {n : Int} (h0 : 0 ≤ n) (h : n < 4294967296) :
    (toUnsigned n : Int) = n := by
  unfold toUnsigned
  omega

theorem toUnsignedLongLong_toInt_of_lt {n : Int} (h0 : 0 ≤ n) (h : n < 2147483648) :
    (toUnsignedLongLong (toInt n) : Int) = n := by
  unfold toUnsignedLongLong toInt
  omega

theorem toUnsigned_of_nonneg_int {n : Int} (h0 : 0 ≤ n) (h : InIntRange n) :
    (toUnsigned n : Int) = n ∧ (toUnsignedLongLong n : Int) = n := by
  unfold InIntRange at h
  unfold toUnsigned toUnsignedLongLong
  omega

/-! ### scan -/

theorem deliverEvents_handler (events : List MatchEvent) (err : Int) (context : MatchContext)
    (returns : List Int) :
    deliverEvents luahs_match_event_handler events err context returns =
      (err, collectEvents events context, returns ++ List.replicate events.length 0) := by
  induction events generalizing context returns with
  | nil => simp [deliverEvents, collectEvents]
  | cons e rest ih =>
    simp only [deliverEvents, luahs_match_event_handler, ne_eq, not_true_eq_false,
      if_false, ih, collectEvents, List.foldl_cons, List.length_cons, List.replicate_succ,
      List.append_assoc, List.singleton_append]

theorem collectEvents_rawget (events : List MatchEvent) (context : MatchContext) (j : Nat) :
    (collectEvents events context).results_table.rawget j =
      if context.nresults < j ∧ j ≤ context.nresults + events.length then
        (events[j - context.nresults - 1]?).map recordOf
      else context.results_table.rawget j := by
  induction events generalizing context with
  | nil =>
    have h : ¬ (context.nresults < j ∧ j ≤ context.nresults + 0) := by omega
    simp only [List.length_nil, if_neg h]
    rfl
  | cons e rest ih =>
    have hstep : collectEvents (e :: rest) context =
        collectEvents rest
          { results_table := lua_rawseti context.results_table (context.nresults + 1) (recordOf e)
            nresults := context.nresults + 1 } := rfl
    rw [hstep, ih]
    simp only [List.length_cons, lua_rawseti, IndexedTable.rawget]
    by_cases h1 : context.nresults + 1 < j ∧ j ≤ context.nresults + 1 + rest.length
    · have h2 : context.nresults < j ∧ j ≤ context.nresults + (rest.length + 1) := by omega
      have h3 : j - context.nresults - 1 = (j - (context.nresults + 1) - 1) + 1 := by omega
      rw [if_pos h1, if_pos h2, h3, List.getElem?_cons_succ]
    · rw [if_neg h1]
      by_cases h4 : context.nresults + 1 = j
      · have h2 : context.nresults < j ∧ j ≤ context.nresults + (rest.length + 1) := by omega
        have h3 : j - context.nresults - 1 = 0 := by omega
        rw [if_pos h4, if_pos h2, h3]
        simp
      · have h2 : ¬ (context.nresults < j ∧ j ≤ context.nresults + (rest.length + 1)) := by
          omega
        rw [if_neg h4, if_neg h2]

theorem recordOf_of_lt (e : MatchEvent)
    (h : e.id < 9223372036854775808 ∧ e.from_ < 9223372036854775808 ∧
      e.to_ < 9223372036854775808) :
    recordOf e = { id := (e.id : Int), from_ := (e.from_ : Int), to_ := (e.to_ : Int) } := by
  unfold recordOf
  rw [toLuaInteger_of_lt h.1, toLuaInteger_of_lt h.2.1, toLuaInteger_of_lt h.2.2]

/-- C1: when the engine reports the events `reply.events` and ends with
`HS_SUCCESS`, `scan` returns a table whose entry at key `k + 1` is the record
`{id, from, to}` of the `k`-th event for every `k` below the number of events
and `nil` at every other key (same order, nothing dropped or duplicated, the
callback's `flags` absent from the record), and the handler returned `0` on
each invocation.  The callback arguments are taken below `2 ^ 63`, the values
`lua_Integer` represents. -/
theorem scan_collects_every_match (E : Engine) (errorToString : Int → String)
    (indetFlags : Int) (db : DatabaseHandle) (data : String) (scratch : ScratchHandle)
    (reply : ScanReply)
    (hreply : E.hs_scan db data (data.length % 4294967296) (toUnsigned indetFlags) scratch
      = reply)
    (hok : reply.err = HS_SUCCESS)
    (hrange : ∀ e ∈ reply.events, e.id < 9223372036854775808 ∧
      e.from_ < 9223372036854775808 ∧ e.to_ < 9223372036854775808) :
    ∃ t : IndexedTable,
      (scan E errorToString indetFlags db data scratch).outcome = .returned t ∧
      (∀ k, t.rawget (k + 1) =
        (reply.events[k]?).map
          (fun e => { id := (e.id : Int), from_ := (e.from_ : Int), to_ := (e.to_ : Int) })) ∧
      t.rawget 0 = none ∧
      (scan E errorToString indetFlags db data scratch).handlerReturns =
        List.replicate reply.events.length 0 := by
  refine ⟨(collectEvents reply.events { results_table := [], nresults := 0 }).results_table,
    ?_, ?_, ?_, ?_⟩
  · simp only [scan, hreply, deliverEvents_handler, hok]
    simp
  · intro k
    rw [collectEvents_rawget]
    simp only [Nat.zero_add, Nat.add_sub_cancel, Nat.sub_zero, IndexedTable.rawget]
    by_cases hk : k < reply.events.length
    · have h1 : 0 < k + 1 ∧ k + 1 ≤ reply.events.length := by omega
      rw [if_pos h1, List.getElem?_eq_getElem hk]
      simp only [Option.map_some']
      rw [recordOf_of_lt _ (hrange _ (List.getElem_mem hk))]
    · have h1 : ¬ (0 < k + 1 ∧ k + 1 ≤ reply.events.length) := by omega
      rw [if_neg h1, List.getElem?_eq_none (by omega)]
      rfl
  · rw [collectEvents_rawget]
    simp [IndexedTable.rawget]
  · simp only [scan, hreply, deliverEvents_handler]
    simp

/-- Witness for C1 on the two-match engine. -/
theorem scan_collects_every_match_witness :
    ∃ t : IndexedTable,
      (scan demoEngine demoErrorToString 0 1 "foobar" 2).outcome = .returned t ∧
      (∀ k, t.rawget (k + 1) =
        (([⟨10, 0, 3, 0⟩, ⟨20, 3, 6, 5⟩] : List MatchEvent)[k]?).map
          (fun e => { id := (e.id : Int), from_ := (e.from_ : Int), to_ := (e.to_ : Int) })) ∧
      t.rawget 0 = none ∧
      (scan demoEngine demoErrorToString 0 1 "foobar" 2).handlerReturns =
        List.replicate 2 0 :=
  scan_collects_every_match demoEngine demoErrorToString 0 1 "foobar" 2
    ⟨[⟨10, 0, 3, 0⟩, ⟨20, 3, 6, 5⟩], HS_SUCCESS⟩ rfl rfl (by decide)

/-- C2: when the engine ends the scan with a status other than `HS_SUCCESS`,
whatever events it reported before, `scan` raises the error
`errorToString status`; it returns no table, although the handler ran on every
reported event. -/
theorem scan_error_discards_matches (E : Engine) (errorToString : Int → String)
    (indetFlags : Int) (db : DatabaseHandle) (data : String) (scratch : ScratchHandle)
    (reply : ScanReply)
    (hreply : E.hs_scan db data (data.length % 4294967296) (toUnsigned indetFlags) scratch
      = reply)
    (herr : reply.err ≠ HS_SUCCESS) :
    (scan E errorToString indetFlags db data scratch).outcome =
        .raised (errorToString reply.err) ∧
      (∀ t, (scan E errorToString indetFlags db data scratch).outcome ≠ .returned t) ∧
      (scan E errorToString indetFlags db data scratch).handlerReturns =
        List.replicate reply.events.length 0 := by
  have h1 : (scan E errorToString indetFlags db data scratch).outcome =
      .raised (errorToString reply.err) := by
    simp only [scan, hreply, deliverEvents_handler]
    simp [herr]
  refine ⟨h1, ?_, ?_⟩
  · intro t ht
    rw [h1] at ht
    cases ht
  · simp only [scan, hreply, deliverEvents_handler]
    simp

/-- Witness for C2 on the engine that reports one match and then fails. -/
theorem scan_error_discards_matches_witness :
    (scan failingEngine demoErrorToString 0 1 "foobar" 2).outcome =
        .raised (demoErrorToString (-1)) ∧
      (∀ t, (scan failingEngine demoErrorToString 0 1 "foobar" 2).outcome ≠ .returned t) ∧
      (scan failingEngine demoErrorToString 0 1 "foobar" 2).handlerReturns =
        List.replicate 1 0 :=
  scan_error_discards_matches failingEngine demoErrorToString 0 1 "foobar" 2
    ⟨[⟨10, 0, 3, 0⟩], -1⟩ rfl (by decide)

/-- C9: the `flags` argument `scan` hands to `hs_scan` is the value of the
never-assigned local `int flags`, whatever the database, the data and the
scratch are; with the value `1` in that local the engine receives the flags
`1`, not `0`. -/
theorem scan_hands_over_unassigned_flags (E : Engine) (errorToString : Int → String)
    (indetFlags : Int) (db : DatabaseHandle) (data : String) (scratch : ScratchHandle) :
    (scan E errorToString indetFlags db data scratch).calls =
        [.hs_scan db data (data.length % 4294967296) (toUnsigned indetFlags) scratch] ∧
      (scan demoEngine demoErrorToString 1 1 "foobar" 2).calls =
        [.hs_scan 1 "foobar" 6 1 2] := by
  refine ⟨rfl, ?_⟩
  decide

/-! ### toFlags -/

theorem ldiff_lt_two_pow {a b k : Nat} (h : a < 2 ^ k) : Nat.ldiff a b < 2 ^ k := by
  apply Nat.lt_pow_two_of_testBit
  intro i hi
  rw [Nat.testBit_ldiff]
  have hbit : a.testBit i = false :=
    Nat.testBit_lt_two_pow (lt_of_lt_of_le h (Nat.pow_le_pow_right (by norm_num) hi))
  simp [hbit]

theorem land_lt_two_pow {a b k : Nat} (h : a < 2 ^ k) : a &&& b < 2 ^ k :=
  lt_of_le_of_lt Nat.and_le_left h

theorem lor_inIntRange {a b : Int} (ha : InIntRange a) (hb : InIntRange b) :
    InIntRange (Int.lor a b) := by
  unfold InIntRange at *
  cases a with
  | ofNat m =>
    cases b with
    | ofNat n =>
      simp only [Int.lor, Int.ofNat_eq_coe, Int.negSucc_eq] at *
      have := @Nat.or_lt_two_pow m n 31 (by omega) (by omega)
      omega
    | negSucc n =>
      simp only [Int.lor, Int.ofNat_eq_coe, Int.negSucc_eq] at *
      have := @ldiff_lt_two_pow n m 31 (by omega)
      omega
  | negSucc m =>
    cases b with
    | ofNat n =>
      simp only [Int.lor, Int.ofNat_eq_coe, Int.negSucc_eq] at *
      have := @ldiff_lt_two_pow m n 31 (by omega)
      omega
    | negSucc n =>
      simp only [Int.lor, Int.ofNat_eq_coe, Int.negSucc_eq] at *
      have := @land_lt_two_pow m n 31 (by omega)
      omega

theorem lor_right_comm (a b c : Int) :
    Int.lor (Int.lor a b) c = Int.lor (Int.lor a c) b := by
  cases a <;> cases b <;> cases c <;> simp only [Int.lor, Int.ofNat_eq_coe] <;>
    congr 1 <;> apply Nat.eq_of_testBit_eq <;> intro i <;>
    simp only [Nat.testBit_ldiff, Nat.testBit_or, Nat.testBit_and] <;>
    cases Nat.testBit _ i <;> cases Nat.testBit _ i <;> cases Nat.testBit _ i <;> rfl

theorem toFlagsLoop_numbers (cvt : StrToInt) (ns : List Int) (acc : Int)
    (hacc : InIntRange acc) (h : ∀ n ∈ ns, InIntRange n) :
    toFlagsLoop cvt (ns.map LuaValue.number) acc = .ok (ns.foldl Int.lor acc) := by
  induction ns generalizing acc with
  | nil => rfl
  | cons n rest ih =>
    have hn : InIntRange n := h n (List.mem_cons_self _ _)
    have hr : InIntRange (Int.lor acc n) := lor_inIntRange hacc hn
    simp only [List.map_cons, toFlagsLoop, luaL_checkinteger, List.foldl_cons]
    rw [toInt_of_inIntRange hr]
    exact ih _ hr (fun m hm => h m (List.mem_cons_of_mem _ hm))

theorem foldl_lor_perm {ns ns' : List Int} (h : ns.Perm ns') (acc : Int) :
    ns.foldl Int.lor acc = ns'.foldl Int.lor acc := by
  induction h generalizing acc with
  | nil => rfl
  | cons x _ ih => simpa using ih _
  | swap x y l => simp only [List.foldl_cons]; rw [lor_right_comm]
  | trans _ _ ih1 ih2 => exact (ih1 acc).trans (ih2 acc)

theorem toPlatform_table_iff (cvt : StrToInt) (arr : List LuaValue)
    (fields : List (String × LuaValue)) (p : PlatformInfo) :
    toPlatform cvt (.table arr fields) = .ok (some p) ↔
      ∃ t c r1 r2,
        toFlags cvt (lua_getfield (.table arr fields) "tune") "tune" = .ok t ∧
        toFlags cvt (lua_getfield (.table arr fields) "cpu_features") "cpu_features"
          = .ok c ∧
        toFlags cvt (lua_getfield (.table arr fields) "reserved1") "reserved1" = .ok r1 ∧
        toFlags cvt (lua_getfield (.table arr fields) "reserved2") "reserved2" = .ok r2 ∧
        p = { tune := toUnsigned t, cpu_features := toUnsignedLongLong c,
              reserved1 := toUnsignedLongLong r1, reserved2 := toUnsignedLongLong r2 } := by
  cases h1 : toFlags cvt (lua_getfield (.table arr fields) "tune") "tune" <;>
    cases h2 : toFlags cvt (lua_getfield (.table arr fields) "cpu_features") "cpu_features" <;>
    cases h3 : toFlags cvt (lua_getfield (.table arr fields) "reserved1") "reserved1" <;>
    cases h4 : toFlags cvt (lua_getfield (.table arr fields) "reserved2") "reserved2" <;>
    simp [toPlatform, h1, h2, h3, h4, eq_comm]

theorem toPlatform_table_error (cvt : StrToInt) (arr : List LuaValue)
    (fields : List (String × LuaValue)) (e : String) :
    (toFlags cvt (lua_getfield (.table arr fields) "tune") "tune" = .error e →
      toPlatform cvt (.table arr fields) = .error e) ∧
    (∀ t, toFlags cvt (lua_getfield (.table arr fields) "tune") "tune" = .ok t →
      toFlags cvt (lua_getfield (.table arr fields) "cpu_features") "cpu_features"
        = .error e →
      toPlatform cvt (.table arr fields) = .error e) ∧
    (∀ t c, toFlags cvt (lua_getfield (.table arr fields) "tune") "tune" = .ok t →
      toFlags cvt (lua_getfield (.table arr fields) "cpu_features") "cpu_features"
        = .ok c →
      toFlags cvt (lua_getfield (.table arr fields) "reserved1") "reserved1" = .error e →
      toPlatform cvt (.table arr fields) = .error e) ∧
    (∀ t c r1, toFlags cvt (lua_getfield (.table arr fields) "tune") "tune" = .ok t →
      toFlags cvt (lua_getfield (.table arr fields) "cpu_features") "cpu_features"
        = .ok c →
      toFlags cvt (lua_getfield (.table arr fields) "reserved1") "reserved1" = .ok r1 →
      toFlags cvt (lua_getfield (.table arr fields) "reserved2") "reserved2" = .error e →
      toPlatform cvt (.table arr fields) = .error e) := by
  refine ⟨?_, ?_, ?_, ?_⟩
  · intro h1
    simp [toPlatform, h1]
  · intro t h1 h2
    simp [toPlatform, h1, h2]
  · intro t c h1 h2 h3
    simp [toPlatform, h1, h2, h3]
  · intro t c r1 h1 h2 h3 h4
    simp [toPlatform, h1, h2, h3, h4]

theorem compile_single_flags (E : Engine) (cvt : StrToInt) (indet : Nat → Nat → Int)
    (arg1 : LuaValue) (mode : Int) (platform : Option PlatformInfo) (expression : String)
    (htab : lua_type arg1 = .LUA_TTABLE)
    (hmode : toMode (lua_getfield arg1 "mode") = .ok mode)
    (hplat : toPlatform cvt (lua_getfield arg1 "platform") = .ok platform)
    (hexpr : lua_type (lua_getfield arg1 "expression") ≠ .LUA_TNIL)
    (hstr : luaL_checkstring (lua_getfield arg1 "expression") = .ok expression) :
    (∀ f, toFlags cvt (lua_getfield arg1 "flags") "flags" = .ok f →
      compile E cvt indet arg1 =
        compileFinish (E.hs_compile expression (toUnsigned f) (toUnsigned mode) platform)
          [.hs_compile expression (toUnsigned f) (toUnsigned mode) platform]) ∧
    (∀ e, toFlags cvt (lua_getfield arg1 "flags") "flags" = .error e →
      compile E cvt indet arg1 = (.raised e, [])) := by
  refine ⟨?_, ?_⟩
  · intro f hf
    unfold compile
    rw [if_neg (by simp [htab])]
    simp only [hmode, hplat]
    rw [if_pos hexpr]
    simp only [hstr, hf]
  · intro e hf
    unfold compile
    rw [if_neg (by simp [htab])]
    simp only [hmode, hplat]
    rw [if_pos hexpr]
    simp only [hstr, hf]

theorem getIntegerField_toFlagsInMulti (cvt : StrToInt) (tbl : LuaValue)
    (h : lua_type (lua_getfield tbl "flags") = .LUA_TNUMBER ∨
      lua_type (lua_getfield tbl "flags") = .LUA_TTABLE) :
    getIntegerField cvt tbl "flags" .toFlagsInMulti =
      match toFlags cvt (lua_getfield tbl "flags") "flags" with
      | .ok f => .ok (some (toInt f))
      | .error e => .error e := by
  unfold getIntegerField
  rcases h with h | h
  · simp [h, applyFilter, toFlagsInMulti]
  · simp [h, applyFilter, toFlagsInMulti]

/-- C5 as stated fails: for the single integer `4294967296` the function
returns `0`, not the integer. -/
theorem toFlags_wide_integer_counterexample :
    toFlags (fun _ => none) (.number 4294967296) "flags" = .ok 0 ∧
      toFlags (fun _ => none) (.number 4294967296) "flags" ≠ .ok 4294967296 := by
  decide

/-- C5 amended: `toFlags` returns, for a single integer, that integer converted
to C `int`, which is the integer itself when it is representable in `int`; for
a collection of integers representable in `int`, their bitwise OR (`0` for the
empty collection, the same for every order of the elements); `0` for an absent
argument; and for a value of any other type it raises the error
`Bad type of '<name>': <type>` with the field name passed in.  Its callers
hand on that result or that error: `compile` calls it on the request's `flags`
under the name `flags` and gives `hs_compile` the result as `unsigned int`;
`getIntegerField` calls it on a pattern's `flags` under the name `flags`;
`toPlatform` calls it on `tune`, `cpu_features`, `reserved1`, `reserved2`,
each under its own name, and stores the result in the unsigned field (`tune`
as `unsigned int`, the others as `unsigned long long`), which keeps every
non-negative result as it is. -/
theorem toFlags_int_semantics (cvt : StrToInt) (name : String) :
    (∀ n, toFlags cvt (.number n) name = .ok (toInt n)) ∧
    (∀ n, InIntRange n → toFlags cvt (.number n) name = .ok n) ∧
    (∀ (ns : List Int) fields, (∀ n ∈ ns, InIntRange n) →
      toFlags cvt (.table (ns.map .number) fields) name = .ok (ns.foldl Int.lor 0)) ∧
    (∀ (ns ns' : List Int) fields fields', ns.Perm ns' → (∀ n ∈ ns, InIntRange n) →
      toFlags cvt (.table (ns.map .number) fields) name =
        toFlags cvt (.table (ns'.map .number) fields') name) ∧
    (∀ fields, toFlags cvt (.table [] fields) name = .ok 0) ∧
    toFlags cvt .nil name = .ok 0 ∧
    (∀ v, lua_type v ≠ .LUA_TNUMBER → lua_type v ≠ .LUA_TTABLE → lua_type v ≠ .LUA_TNIL →
      toFlags cvt v name =
        .error ("Bad type of '" ++ name ++ "': " ++ lua_typename (lua_type v))) ∧
    (∀ (E : Engine) (indet : Nat → Nat → Int) (arg1 : LuaValue) (mode : Int)
        (platform : Option PlatformInfo) (expression : String),
      lua_type arg1 = .LUA_TTABLE →
      toMode (lua_getfield arg1 "mode") = .ok mode →
      toPlatform cvt (lua_getfield arg1 "platform") = .ok platform →
      lua_type (lua_getfield arg1 "expression") ≠ .LUA_TNIL →
      luaL_checkstring (lua_getfield arg1 "expression") = .ok expression →
      (∀ f, toFlags cvt (lua_getfield arg1 "flags") "flags" = .ok f →
        compile E cvt indet arg1 =
          compileFinish (E.hs_compile expression (toUnsigned f) (toUnsigned mode) platform)
            [.hs_compile expression (toUnsigned f) (toUnsigned mode) platform]) ∧
      (∀ e, toFlags cvt (lua_getfield arg1 "flags") "flags" = .error e →
        compile E cvt indet arg1 = (.raised e, []))) ∧
    (∀ tbl, (lua_type (lua_getfield tbl "flags") = .LUA_TNUMBER ∨
        lua_type (lua_getfield tbl "flags") = .LUA_TTABLE) →
      getIntegerField cvt tbl "flags" .toFlagsInMulti =
        match toFlags cvt (lua_getfield tbl "flags") "flags" with
        | .ok f => .ok (some (toInt f))
        | .error e => .error e) ∧
    (∀ arr fields p, toPlatform cvt (.table arr fields) = .ok (some p) ↔
      ∃ t c r1 r2,
        toFlags cvt (lua_getfield (.table arr fields) "tune") "tune" = .ok t ∧
        toFlags cvt (lua_getfield (.table arr fields) "cpu_features") "cpu_features"
          = .ok c ∧
        toFlags cvt (lua_getfield (.table arr fields) "reserved1") "reserved1" = .ok r1 ∧
        toFlags cvt (lua_getfield (.table arr fields) "reserved2") "reserved2" = .ok r2 ∧
        p = { tune := toUnsigned t, cpu_features := toUnsignedLongLong c,
              reserved1 := toUnsignedLongLong r1, reserved2 := toUnsignedLongLong r2 }) ∧
    (∀ arr fields e,
      (toFlags cvt (lua_getfield (.table arr fields) "tune") "tune" = .error e →
        toPlatform cvt (.table arr fields) = .error e) ∧
      (∀ t, toFlags cvt (lua_getfield (.table arr fields) "tune") "tune" = .ok t →
        toFlags cvt (lua_getfield (.table arr fields) "cpu_features") "cpu_features"
          = .error e →
        toPlatform cvt (.table arr fields) = .error e) ∧
      (∀ t c, toFlags cvt (lua_getfield (.table arr fields) "tune") "tune" = .ok t →
        toFlags cvt (lua_getfield (.table arr fields) "cpu_features") "cpu_features"
          = .ok c →
        toFlags cvt (lua_getfield (.table arr fields) "reserved1") "reserved1" = .error e →
        toPlatform cvt (.table arr fields) = .error e) ∧
      (∀ t c r1, toFlags cvt (lua_getfield (.table arr fields) "tune") "tune" = .ok t →
        toFlags cvt (lua_getfield (.table arr fields) "cpu_features") "cpu_features"
          = .ok c →
        toFlags cvt (lua_getfield (.table arr fields) "reserved1") "reserved1" = .ok r1 →
        toFlags cvt (lua_getfield (.table arr fields) "reserved2") "reserved2" = .error e →
        toPlatform cvt (.table arr fields) = .error e)) ∧
    (∀ t : Int, 0 ≤ t → InIntRange t →
      (toUnsigned t : Int) = t ∧ (toUnsignedLongLong t : Int) = t) := by
  have hzero : InIntRange 0 := by decide
  refine ⟨fun _ => rfl, ?_, ?_, ?_, fun _ => rfl, rfl, ?_, ?_,
    getIntegerField_toFlagsInMulti cvt, toPlatform_table_iff cvt,
    toPlatform_table_error cvt, fun _ h0 h => toUnsigned_of_nonneg_int h0 h⟩
  · intro n hn
    simp only [toFlags, toInt_of_inIntRange hn]
  · intro ns fields h
    simp only [toFlags]
    exact toFlagsLoop_numbers cvt ns 0 hzero h
  · intro ns ns' fields fields' hp h
    have h' : ∀ n ∈ ns', InIntRange n := fun n hn => h n (hp.symm.subset hn)
    simp only [toFlags]
    rw [toFlagsLoop_numbers cvt ns 0 hzero h, toFlagsLoop_numbers cvt ns' 0 hzero h',
      foldl_lor_perm hp]
  · intro v h1 h2 h3
    cases v <;> simp_all [toFlags, lua_type]
  · intro E indet arg1 mode platform expression htab hmode hplat hexpr hstr
    exact compile_single_flags E cvt indet arg1 mode platform expression htab hmode hplat
      hexpr hstr

/-! ### compile -/

theorem compileMultiCall_isCompile (s : MultiArrays) (n mode : Nat)
    (p : Option PlatformInfo) : (compileMultiCall s n mode p).isCompile = true := by
  unfold compileMultiCall
  simp only []
  split <;> rfl

theorem compileMulti_cases (E : Engine) (cvt : StrToInt) (indet : Nat → Nat → Int)
    (v : LuaValue) (mode : Nat) (p : Option PlatformInfo) :
    (∃ e, compileMulti E cvt indet v mode p = (.error e, [])) ∨
    (∃ call, call.isCompile = true ∧
      compileMulti E cvt indet v mode p = (.ok (E.compileReply call), [call])) := by
  unfold compileMulti
  cases h : compileMultiArrays cvt indet v with
  | error e => exact Or.inl ⟨e, rfl⟩
  | ok s => exact Or.inr ⟨_, compileMultiCall_isCompile _ _ _ _, rfl⟩

theorem compile_cases (E : Engine) (cvt : StrToInt) (indet : Nat → Nat → Int)
    (arg1 : LuaValue) :
    (∃ msg, compile E cvt indet arg1 = (.raised msg, [])) ∨
    (∃ call, call.isCompile = true ∧
      compile E cvt indet arg1 = compileFinish (E.compileReply call) [call]) := by
  unfold compile
  split
  · exact Or.inl ⟨_, rfl⟩
  · split
    · exact Or.inl ⟨_, rfl⟩
    · split
      · exact Or.inl ⟨_, rfl⟩
      · split
        · split
          · exact Or.inl ⟨_, rfl⟩
          · split
            · exact Or.inl ⟨_, rfl⟩
            · exact Or.inr ⟨.hs_compile _ _ _ _, rfl, rfl⟩
        · split
          · rcases compileMulti_cases E cvt indet (lua_getfield arg1 "expressions")
              (toUnsigned ‹Int›) ‹Option PlatformInfo› with ⟨e, he⟩ | ⟨call, hc, he⟩
            · rw [he]; exact Or.inl ⟨e, rfl⟩
            · rw [he]; exact Or.inr ⟨call, hc, rfl⟩
          · exact Or.inl ⟨_, rfl⟩

/-- C6 as stated fails: when the compile primitive fails with the status `-2`
and stores no diagnostic, `compile` raises no error at all; it reads the
diagnostic through a pointer that points to nothing. -/
theorem compile_without_diagnostic_counterexample :
    (noDiagnosticEngine.hs_compile "a" 0 1 none).err = -2 ∧
      (noDiagnosticEngine.hs_compile "a" 0 1 none).compile_err = none ∧
      compile noDiagnosticEngine (fun _ => none) (fun _ _ => 0)
          (.table [] [("mode", .number 1), ("expression", .string "a")]) =
        (.invalidDereference, [.hs_compile "a" 0 1 none]) := by
  decide

/-- C6 amended: whenever `compile` reaches a compile primitive and the engine
replies with a status other than `HS_SUCCESS` and a diagnostic, whatever the
status is, `compile` raises `Unable to compile expression #<index>: <message>`
when the diagnostic's index is non-negative and
`Unable to compile expression: <message>` otherwise, and its one further
engine call releases that diagnostic; the status is not part of the error. -/
theorem compile_failure_raises_diagnostic (E : Engine) (cvt : StrToInt)
    (indet : Nat → Nat → Int) (arg1 : LuaValue) (call : EngineCall) (rest : List EngineCall)
    (ce : hs_compile_error_t)
    (htrace : (compile E cvt indet arg1).2 = call :: rest)
    (hfail : (E.compileReply call).err ≠ HS_SUCCESS)
    (hdiag : (E.compileReply call).compile_err = some ce) :
    call.isCompile = true ∧
      (compile E cvt indet arg1).1 =
        .raised (if ce.expression ≥ 0 then
            "Unable to compile expression #" ++ toString ce.expression ++ ": " ++ ce.message
          else "Unable to compile expression: " ++ ce.message) ∧
      rest = [.hs_free_compile_error ce] := by
  rcases compile_cases E cvt indet arg1 with ⟨msg, h⟩ | ⟨call', hc, h⟩
  · rw [h] at htrace
    cases htrace
  · rw [h] at htrace ⊢
    unfold compileFinish at htrace ⊢
    by_cases herr : (E.compileReply call').err ≠ HS_SUCCESS
    · rw [if_pos herr] at htrace ⊢
      simp only [List.singleton_append, List.cons.injEq] at htrace
      obtain ⟨h1, h2⟩ := htrace
      subst h1
      rw [hdiag] at h2 ⊢
      unfold throwCompileError at h2 ⊢
      simp only [] at h2 ⊢
      by_cases hidx : ce.expression ≥ 0
      · rw [if_pos hidx] at h2
        rw [if_pos hidx, if_pos hidx]
        exact ⟨hc, rfl, h2.symm⟩
      · rw [if_neg hidx] at h2
        rw [if_neg hidx, if_neg hidx]
        exact ⟨hc, rfl, h2.symm⟩
    · rw [if_neg herr] at htrace
      simp only [List.cons.injEq] at htrace
      obtain ⟨h1, _⟩ := htrace
      subst h1
      exact absurd hfail herr

/-- Witness for C6 amended: a two-pattern batch on the engine that rejects
pattern 1. -/
theorem compile_failure_raises_diagnostic_witness :
    (EngineCall.hs_compile_multi ["foo", "("] none none 2 1 none).isCompile = true ∧
      (compile failingEngine (fun _ => none) (fun _ _ => 0)
          (.table [] [("mode", .number 1),
            ("expressions", .table [.string "foo", .string "("] [])])).1 =
        .raised (if (1 : Int) ≥ 0 then
            "Unable to compile expression #" ++ toString (1 : Int) ++ ": " ++
              "Missing close parenthesis"
          else "Unable to compile expression: " ++ "Missing close parenthesis") ∧
      [EngineCall.hs_free_compile_error ⟨"Missing close parenthesis", 1⟩] =
        [.hs_free_compile_error ⟨"Missing close parenthesis", 1⟩] :=
  compile_failure_raises_diagnostic failingEngine (fun _ => none) (fun _ _ => 0)
    (.table [] [("mode", .number 1), ("expressions", .table [.string "foo", .string "("] [])])
    (.hs_compile_multi ["foo", "("] none none 2 1 none)
    [.hs_free_compile_error ⟨"Missing close parenthesis", 1⟩]
    ⟨"Missing close parenthesis", 1⟩ (by decide) (by decide) (by decide)

/-- C7: a compile request with neither `expression` nor `expressions`,
whatever else it holds, makes no engine call and ends in a raised Lua error;
when `mode` and `platform` pass their own checks the error is
`Specify 'expression' or 'expressions'`. -/
theorem compile_requires_expression (E : Engine) (cvt : StrToInt)
    (indet : Nat → Nat → Int) (arg1 : LuaValue)
    (h1 : lua_type (lua_getfield arg1 "expression") = .LUA_TNIL)
    (h2 : lua_type (lua_getfield arg1 "expressions") = .LUA_TNIL) :
    (compile E cvt indet arg1).2 = [] ∧
      (∃ msg, (compile E cvt indet arg1).1 = .raised msg) ∧
      (∀ t, (compile E cvt indet arg1).1 ≠ .returned t) ∧
      (lua_type arg1 = .LUA_TTABLE →
        ∀ mode platform, toMode (lua_getfield arg1 "mode") = .ok mode →
          toPlatform cvt (lua_getfield arg1 "platform") = .ok platform →
          (compile E cvt indet arg1).1 = .raised "Specify 'expression' or 'expressions'") := by
  have key : ∃ msg, compile E cvt indet arg1 = (.raised msg, []) ∧
      (lua_type arg1 = .LUA_TTABLE →
        ∀ mode platform, toMode (lua_getfield arg1 "mode") = .ok mode →
          toPlatform cvt (lua_getfield arg1 "platform") = .ok platform →
          msg = "Specify 'expression' or 'expressions'") := by
    unfold compile
    split
    · rename_i ht
      exact ⟨_, rfl, fun h => absurd h ht⟩
    · split
      · rename_i e hm
        exact ⟨_, rfl, fun _ mode _ hmode _ => by rw [hm] at hmode; cases hmode⟩
      · split
        · rename_i e hp
          exact ⟨_, rfl, fun _ _ platform _ hplat => by rw [hp] at hplat; cases hplat⟩
        · rw [if_neg (by simp [h1]), if_neg (by simp [h2])]
          exact ⟨_, rfl, fun _ _ _ _ _ => rfl⟩
  obtain ⟨msg, hc, hmsg⟩ := key
  rw [hc]
  refine ⟨rfl, ⟨msg, rfl⟩, ?_, ?_⟩
  · intro t ht
    cases ht
  · intro ht mode platform hm hp
    simp only [hmsg ht mode platform hm hp]

/-- Witness for C7: a request holding only `mode` and `flags`. -/
theorem compile_requires_expression_witness :
    (compile demoEngine (fun _ => none) (fun _ _ => 0)
        (.table [] [("mode", .number 1), ("flags", .number 2)])).2 = [] ∧
      (∃ msg, (compile demoEngine (fun _ => none) (fun _ _ => 0)
        (.table [] [("mode", .number 1), ("flags", .number 2)])).1 = .raised msg) ∧
      (∀ t, (compile demoEngine (fun _ => none) (fun _ _ => 0)
        (.table [] [("mode", .number 1), ("flags", .number 2)])).1 ≠ .returned t) ∧
      (lua_type (.table [] [("mode", .number 1), ("flags", .number 2)]) = .LUA_TTABLE →
        ∀ mode platform,
          toMode (lua_getfield (.table [] [("mode", .number 1), ("flags", .number 2)]) "mode")
            = .ok mode →
          toPlatform (fun _ => none)
            (lua_getfield (.table [] [("mode", .number 1), ("flags", .number 2)]) "platform")
            = .ok platform →
          (compile demoEngine (fun _ => none) (fun _ _ => 0)
            (.table [] [("mode", .number 1), ("flags", .number 2)])).1 =
            .raised "Specify 'expression' or 'expressions'") :=
  compile_requires_expression demoEngine (fun _ => none) (fun _ _ => 0)
    (.table [] [("mode", .number 1), ("flags", .number 2)]) (by decide) (by decide)

/-! ### serialize / deserialize -/

/-- C8: when the engine serialises `db` to `blob`, `database_serialize`
returns exactly `blob`, and `deserialize` of that string hands the engine's
deserialiser exactly `blob` with its length; it returns the handle the engine
produced, and if the engine scans with that handle as with `db`, every `scan`
with it ends as the `scan` with `db` does. -/
theorem serialize_deserialize_roundtrip (E : Engine) (errorToString : Int → String)
    (db : DatabaseHandle) (blob : String)
    (hser : E.hs_serialize_database db = ⟨HS_SUCCESS, blob⟩) :
    database_serialize E errorToString db = (.returned blob, [.hs_serialize_database db]) ∧
      (deserialize E errorToString (.string blob)).2 =
        [.hs_deserialize_database blob blob.length] ∧
      (∀ db', E.hs_deserialize_database blob blob.length = ⟨HS_SUCCESS, db'⟩ →
        (deserialize E errorToString (.string blob)).1 = .returned db' ∧
        ((∀ data length flags scratch,
            E.hs_scan db' data length flags scratch = E.hs_scan db data length flags scratch) →
          ∀ indetFlags data scratch,
            (scan E errorToString indetFlags db' data scratch).outcome =
              (scan E errorToString indetFlags db data scratch).outcome ∧
            (scan E errorToString indetFlags db' data scratch).handlerReturns =
              (scan E errorToString indetFlags db data scratch).handlerReturns)) := by
  refine ⟨?_, ?_, ?_⟩
  · simp [database_serialize, hser]
  · simp only [deserialize, luaL_checklstring, luaL_checkstring]
    split <;> rfl
  · intro db' hde
    refine ⟨?_, ?_⟩
    · simp [deserialize, luaL_checklstring, luaL_checkstring, hde]
    · intro hscan indetFlags data scratch
      simp only [scan, hscan]
      exact ⟨trivial, trivial⟩

/-- Witness for C8: the blob of the demonstration engine holds a zero byte. -/
theorem serialize_deserialize_roundtrip_witness :
    database_serialize demoEngine demoErrorToString 7 =
        (.returned "hs\x00db", [.hs_serialize_database 7]) ∧
      (deserialize demoEngine demoErrorToString (.string "hs\x00db")).2 =
        [.hs_deserialize_database "hs\x00db" "hs\x00db".length] ∧
      (∀ db', demoEngine.hs_deserialize_database "hs\x00db" "hs\x00db".length
          = ⟨HS_SUCCESS, db'⟩ →
        (deserialize demoEngine demoErrorToString (.string "hs\x00db")).1 = .returned db' ∧
        ((∀ data length flags scratch,
            demoEngine.hs_scan db' data length flags scratch =
              demoEngine.hs_scan 7 data length flags scratch) →
          ∀ indetFlags data scratch,
            (scan demoEngine demoErrorToString indetFlags db' data scratch).outcome =
              (scan demoEngine demoErrorToString indetFlags 7 data scratch).outcome ∧
            (scan demoEngine demoErrorToString indetFlags db' data scratch).handlerReturns =
              (scan demoEngine demoErrorToString indetFlags 7 data scratch).handlerReturns)) :=
  serialize_deserialize_roundtrip demoEngine demoErrorToString 7 "hs\x00db" rfl

/-! ### compileMulti -/

theorem getIntegerField_checkinteger (cvt : StrToInt) (tbl : LuaValue) (name : String)
    (r : Option Int)
    (h : getIntegerField cvt tbl name .luaL_checkinteger = .ok r) :
    r = constraintField tbl name := by
  unfold getIntegerField at h
  unfold constraintField fieldPresent suppliedInteger
  cases hv : lua_getfield tbl name with
  | opaqueValue k => cases k <;> simp [hv, lua_type] at h
  | _ => simp_all [lua_type, applyFilter, luaL_checkinteger]

theorem getIntegerField_flags (cvt : StrToInt) (tbl : LuaValue) (r : Option Int)
    (h : getIntegerField cvt tbl "flags" .toFlagsInMulti = .ok r) :
    r = if fieldPresent tbl "flags" then some (toInt (suppliedFlags cvt tbl)) else none := by
  unfold getIntegerField at h
  unfold fieldPresent suppliedFlags
  cases hv : lua_getfield tbl "flags" with
  | opaqueValue k => cases k <;> simp [hv, lua_type] at h
  | table a f =>
    simp only [hv, lua_type, applyFilter, toFlagsInMulti] at h ⊢
    cases hf : toFlags cvt (.table a f) "flags" <;> simp_all
  | _ => simp_all [lua_type, applyFilter, toFlagsInMulti, toFlags]

theorem extFlags_ne_zero (a b c : Option Int) :
    extFlags a b c ≠ 0 ↔ (a.isSome || b.isSome || c.isSome) = true := by
  cases a <;> cases b <;> cases c <;>
    simp [extFlags, HS_EXT_FLAG_MIN_OFFSET, HS_EXT_FLAG_MAX_OFFSET, HS_EXT_FLAG_MIN_LENGTH]

theorem constraintField_isSome (v : LuaValue) (name : String) :
    (constraintField v name).isSome = fieldPresent v name := by
  unfold constraintField
  cases fieldPresent v name <;> rfl

theorem constraintField_getD (v : LuaValue) (name : String) (u : Int) :
    (constraintField v name).getD u = constraintLocal v name u := by
  unfold constraintField constraintLocal
  cases fieldPresent v name <;> rfl

theorem compileMultiStep_eq (cvt : StrToInt) (indet : Nat → Nat → Int) (i : Nat)
    (v : LuaValue) (s s' : MultiArrays)
    (h : compileMultiStep cvt indet i v s = .ok s') :
    s' = applyPattern cvt indet i v s := by
  cases v with
  | string str =>
    simp only [compileMultiStep, Except.ok.injEq] at h
    subst h
    simp [applyPattern, expressionOf, idPatch, flagsPatch, extPatch, hasConstraint,
      fieldPresent, lua_getfield, lua_type, patchAt]
  | table arr fields =>
    simp only [compileMultiStep, bind, Except.bind] at h
    cases h0 : luaL_checkstring (lua_getfield (.table arr fields) "expression") with
    | error e => simp [h0] at h
    | ok expression =>
    cases h1 : getIntegerField cvt (.table arr fields) "id" .luaL_checkinteger with
    | error e => simp [h0, h1] at h
    | ok id =>
    cases h2 : getIntegerField cvt (.table arr fields) "flags" .toFlagsInMulti with
    | error e => simp [h0, h1, h2] at h
    | ok flags =>
    cases h3 : getIntegerField cvt (.table arr fields) "min_offset" .luaL_checkinteger with
    | error e => simp [h0, h1, h2, h3] at h
    | ok min_offset =>
    cases h4 : getIntegerField cvt (.table arr fields) "max_offset" .luaL_checkinteger with
    | error e => simp [h0, h1, h2, h3, h4] at h
    | ok max_offset =>
    cases h5 : getIntegerField cvt (.table arr fields) "min_length" .luaL_checkinteger with
    | error e => simp [h0, h1, h2, h3, h4, h5] at h
    | ok min_length =>
    simp only [h0, h1, h2, h3, h4, h5] at h
    have e1 := getIntegerField_checkinteger _ _ _ _ h1
    have e2 := getIntegerField_flags _ _ _ h2
    have e3 := getIntegerField_checkinteger _ _ _ _ h3
    have e4 := getIntegerField_checkinteger _ _ _ _ h4
    have e5 := getIntegerField_checkinteger _ _ _ _ h5
    subst e1 e2 e3 e4 e5
    have hx := extFlags_ne_zero (constraintField (.table arr fields) "min_offset")
      (constraintField (.table arr fields) "max_offset")
      (constraintField (.table arr fields) "min_length")
    simp only [constraintField_isSome] at hx
    have he : expressionOf (.table arr fields) = expression := by
      simp [expressionOf, h0]
    by_cases hc : hasConstraint (.table arr fields) = true
    · rw [if_pos (hx.2 hc)] at h
      simp only [Except.ok.injEq] at h
      subst h
      simp only [applyPattern, extPatch, hc, if_true, patchAt, idPatch, flagsPatch, he,
        constraintField_getD]
      by_cases hid : fieldPresent (.table arr fields) "id" = true <;>
        by_cases hfl : fieldPresent (.table arr fields) "flags" = true <;>
        simp [toUnsigned_toInt, constraintField, hid, hfl]
    · have hc' : ¬ (extFlags (constraintField (.table arr fields) "min_offset")
          (constraintField (.table arr fields) "max_offset")
          (constraintField (.table arr fields) "min_length") ≠ 0) := fun hn => hc (hx.1 hn)
      rw [if_neg hc'] at h
      simp only [Except.ok.injEq] at h
      subst h
      simp only [applyPattern, extPatch, hc, patchAt, idPatch, flagsPatch, he]
      by_cases hid : fieldPresent (.table arr fields) "id" = true <;>
        by_cases hfl : fieldPresent (.table arr fields) "flags" = true <;>
        simp [toUnsigned_toInt, constraintField, hid, hfl]
  | nil => simp [compileMultiStep] at h
  | boolean _ => simp [compileMultiStep] at h
  | number _ => simp [compileMultiStep] at h
  | opaqueValue _ => simp [compileMultiStep] at h

theorem compileMultiLoop_eq (cvt : StrToInt) (indet : Nat → Nat → Int)
    (rest : List LuaValue) (i : Nat) (s s' : MultiArrays)
    (h : compileMultiLoop cvt indet rest i s = .ok s') :
    s' = applyPatterns cvt indet rest i s := by
  induction rest generalizing i s with
  | nil =>
    simp only [compileMultiLoop, Except.ok.injEq] at h
    exact h.symm
  | cons v vs ih =>
    simp only [compileMultiLoop] at h
    cases hstep : compileMultiStep cvt indet i v s with
    | error e => simp [hstep] at h
    | ok s1 =>
      simp only [hstep] at h
      rw [compileMultiStep_eq cvt indet i v s s1 hstep] at h
      exact ih _ _ h

theorem patchAt_length {α : Type} (arr : List α) (i : Nat) (o : Option α) :
    (patchAt arr i o).length = arr.length := by
  cases o <;> simp [patchAt]

theorem patchWith_length {α : Type} (f : Nat → LuaValue → Option α) (vs : List LuaValue)
    (arr : List α) (i : Nat) : (patchWith f arr i vs).length = arr.length := by
  induction vs generalizing arr i with
  | nil => rfl
  | cons v vs ih => simp only [patchWith, ih, patchAt_length]

theorem patchAt_getElem?_ne {α : Type} (arr : List α) (i j : Nat) (o : Option α)
    (h : i ≠ j) : (patchAt arr i o)[j]? = arr[j]? := by
  cases o with
  | none => rfl
  | some x => simp [patchAt, List.getElem?_set_ne h]

theorem patchWith_getElem?_lt {α : Type} (f : Nat → LuaValue → Option α)
    (vs : List LuaValue) (arr : List α) (i j : Nat) (h : j < i) :
    (patchWith f arr i vs)[j]? = arr[j]? := by
  induction vs generalizing arr i with
  | nil => rfl
  | cons v vs ih =>
    simp only [patchWith]
    rw [ih _ _ (by omega), patchAt_getElem?_ne _ _ _ _ (by omega)]

theorem patchWith_getElem? {α : Type} (f : Nat → LuaValue → Option α)
    (vs : List LuaValue) (arr : List α) (i j : Nat) (hij : i ≤ j) (hj : j < arr.length) :
    (patchWith f arr i vs)[j]? = ((vs[j - i]?).bind (f j)).or arr[j]? := by
  induction vs generalizing arr i with
  | nil => simp [patchWith]
  | cons v vs ih =>
    simp only [patchWith]
    by_cases hji : j = i
    · subst hji
      rw [patchWith_getElem?_lt _ _ _ _ _ (Nat.lt_succ_self j)]
      simp only [Nat.sub_self, List.getElem?_cons_zero, Option.some_bind]
      cases hf : f j v with
      | none => simp [patchAt]
      | some x => simp [patchAt, hj]
    · have hlen : j < (patchAt arr i (f i v)).length := by rw [patchAt_length]; exact hj
      rw [ih _ _ (by omega) hlen, patchAt_getElem?_ne _ _ _ _ (by omega)]
      have hidx : j - i = (j - (i + 1)) + 1 := by omega
      rw [hidx, List.getElem?_cons_succ]

theorem applyPatterns_ids_space (cvt : StrToInt) (indet : Nat → Nat → Int)
    (vs : List LuaValue) (i : Nat) (s : MultiArrays) :
    (applyPatterns cvt indet vs i s).ids_space =
      patchWith (fun _ v => idPatch v) s.ids_space i vs := by
  induction vs generalizing i s with
  | nil => rfl
  | cons v vs ih => simp only [applyPatterns, ih, patchWith, applyPattern]

theorem applyPatterns_flagss_space (cvt : StrToInt) (indet : Nat → Nat → Int)
    (vs : List LuaValue) (i : Nat) (s : MultiArrays) :
    (applyPatterns cvt indet vs i s).flagss_space =
      patchWith (fun _ v => flagsPatch cvt v) s.flagss_space i vs := by
  induction vs generalizing i s with
  | nil => rfl
  | cons v vs ih => simp only [applyPatterns, ih, patchWith, applyPattern]

theorem applyPatterns_ext_space (cvt : StrToInt) (indet : Nat → Nat → Int)
    (vs : List LuaValue) (i : Nat) (s : MultiArrays) :
    (applyPatterns cvt indet vs i s).ext_space =
      patchWith (fun j v => extPatch indet j v) s.ext_space i vs := by
  induction vs generalizing i s with
  | nil => rfl
  | cons v vs ih => simp only [applyPatterns, ih, patchWith, applyPattern]

theorem applyPatterns_expressions (cvt : StrToInt) (indet : Nat → Nat → Int)
    (vs : List LuaValue) (i : Nat) (s : MultiArrays) :
    (applyPatterns cvt indet vs i s).expressions =
      patchWith (fun _ v => some (expressionOf v)) s.expressions i vs := by
  induction vs generalizing i s with
  | nil => rfl
  | cons v vs ih => simp only [applyPatterns, ih, patchWith, applyPattern, patchAt]

theorem applyPatterns_ids (cvt : StrToInt) (indet : Nat → Nat → Int)
    (vs : List LuaValue) (i : Nat) (s : MultiArrays) :
    (applyPatterns cvt indet vs i s).ids = (s.ids || vs.any (fun v => fieldPresent v "id")) := by
  induction vs generalizing i s with
  | nil => simp [applyPatterns]
  | cons v vs ih => simp only [applyPatterns, ih, applyPattern, List.any_cons, Bool.or_assoc]

theorem applyPatterns_flagss (cvt : StrToInt) (indet : Nat → Nat → Int)
    (vs : List LuaValue) (i : Nat) (s : MultiArrays) :
    (applyPatterns cvt indet vs i s).flagss =
      (s.flagss || vs.any (fun v => fieldPresent v "flags")) := by
  induction vs generalizing i s with
  | nil => simp [applyPatterns]
  | cons v vs ih => simp only [applyPatterns, ih, applyPattern, List.any_cons, Bool.or_assoc]

theorem applyPatterns_ext (cvt : StrToInt) (indet : Nat → Nat → Int)
    (vs : List LuaValue) (i : Nat) (s : MultiArrays) :
    (applyPatterns cvt indet vs i s).ext = (s.ext || vs.any hasConstraint) := by
  induction vs generalizing i s with
  | nil => simp [applyPatterns]
  | cons v vs ih => simp only [applyPatterns, ih, applyPattern, List.any_cons, Bool.or_assoc]

theorem compileMultiArrays_eq (cvt : StrToInt) (indet : Nat → Nat → Int)
    (arr : List LuaValue) (fields : List (String × LuaValue)) (s : MultiArrays)
    (h : compileMultiArrays cvt indet (.table arr fields) = .ok s) :
    s = applyPatterns cvt indet arr 0 (MultiArrays.init arr.length) :=
  compileMultiLoop_eq cvt indet arr 0 _ s h



theorem getIntegerField_checkinteger_number (cvt : StrToInt) (tbl : LuaValue) (name : String)
    (r : Option Int)
    (h : getIntegerField cvt tbl name .luaL_checkinteger = .ok r)
    (hp : fieldPresent tbl name = true) :
    ∃ n, lua_getfield tbl name = .number n := by
  unfold getIntegerField at h
  unfold fieldPresent at hp
  cases hv : lua_getfield tbl name with
  | opaqueValue k => cases k <;> simp [hv, lua_type] at h
  | number n => exact ⟨n, rfl⟩
  | _ => simp_all [lua_type, applyFilter, luaL_checkinteger]

theorem compileMultiStep_numbers (cvt : StrToInt) (indet : Nat → Nat → Int) (i : Nat)
    (v : LuaValue) (s s' : MultiArrays)
    (h : compileMultiStep cvt indet i v s = .ok s') : IntegerFieldsAreNumbers v := by
  cases v with
  | string str =>
    intro name _ hp
    simp [fieldPresent, lua_getfield, lua_type] at hp
  | table arr fields =>
    simp only [compileMultiStep, bind, Except.bind] at h
    cases h0 : luaL_checkstring (lua_getfield (.table arr fields) "expression") with
    | error e => simp [h0] at h
    | ok expression =>
    cases h1 : getIntegerField cvt (.table arr fields) "id" .luaL_checkinteger with
    | error e => simp [h0, h1] at h
    | ok id =>
    cases h2 : getIntegerField cvt (.table arr fields) "flags" .toFlagsInMulti with
    | error e => simp [h0, h1, h2] at h
    | ok flags =>
    cases h3 : getIntegerField cvt (.table arr fields) "min_offset" .luaL_checkinteger with
    | error e => simp [h0, h1, h2, h3] at h
    | ok min_offset =>
    cases h4 : getIntegerField cvt (.table arr fields) "max_offset" .luaL_checkinteger with
    | error e => simp [h0, h1, h2, h3, h4] at h
    | ok max_offset =>
    cases h5 : getIntegerField cvt (.table arr fields) "min_length" .luaL_checkinteger with
    | error e => simp [h0, h1, h2, h3, h4, h5] at h
    | ok min_length =>
    intro name hname hp
    rcases hname with rfl | rfl | rfl | rfl
    · exact getIntegerField_checkinteger_number _ _ _ _ h1 hp
    · exact getIntegerField_checkinteger_number _ _ _ _ h3 hp
    · exact getIntegerField_checkinteger_number _ _ _ _ h4 hp
    · exact getIntegerField_checkinteger_number _ _ _ _ h5 hp
  | nil => simp [compileMultiStep] at h
  | boolean _ => simp [compileMultiStep] at h
  | number _ => simp [compileMultiStep] at h
  | opaqueValue _ => simp [compileMultiStep] at h

theorem compileMultiLoop_numbers (cvt : StrToInt) (indet : Nat → Nat → Int)
    (rest : List LuaValue) (i : Nat) (s s' : MultiArrays)
    (h : compileMultiLoop cvt indet rest i s = .ok s') :
    ∀ v ∈ rest, IntegerFieldsAreNumbers v := by
  induction rest generalizing i s with
  | nil => intro v hv; cases hv
  | cons w ws ih =>
    simp only [compileMultiLoop] at h
    cases hstep : compileMultiStep cvt indet i w s with
    | error e => simp [hstep] at h
    | ok s1 =>
      simp only [hstep] at h
      intro v hv
      rcases List.mem_cons.1 hv with rfl | hv'
      · exact compileMultiStep_numbers cvt indet i _ s s1 hstep
      · exact ih _ _ h v hv'

theorem init_entries (cvt : StrToInt) (indet : Nat → Nat → Int) (arr : List LuaValue)
    (i : Nat) (v : LuaValue) (hv : arr[i]? = some v) :
    (applyPatterns cvt indet arr 0 (MultiArrays.init arr.length)).ids_space[i]? =
        some ((idPatch v).getD 0) ∧
      (applyPatterns cvt indet arr 0 (MultiArrays.init arr.length)).flagss_space[i]? =
        some ((flagsPatch cvt v).getD 0) ∧
      (applyPatterns cvt indet arr 0 (MultiArrays.init arr.length)).ext_space[i]? =
        some ((extPatch indet i v).getD none) ∧
      (applyPatterns cvt indet arr 0 (MultiArrays.init arr.length)).expressions[i]? =
        some (expressionOf v) := by
  have hi : i < arr.length := by
    rcases Nat.lt_or_ge i arr.length with h | h
    · exact h
    · rw [List.getElem?_eq_none h] at hv; cases hv
  rw [applyPatterns_ids_space, applyPatterns_flagss_space, applyPatterns_ext_space,
    applyPatterns_expressions]
  rw [patchWith_getElem? _ _ _ 0 i (Nat.zero_le _) (by simp [MultiArrays.init, hi]),
    patchWith_getElem? _ _ _ 0 i (Nat.zero_le _) (by simp [MultiArrays.init, hi]),
    patchWith_getElem? _ _ _ 0 i (Nat.zero_le _) (by simp [MultiArrays.init, hi]),
    patchWith_getElem? _ _ _ 0 i (Nat.zero_le _) (by simp [MultiArrays.init, hi])]
  simp only [Nat.sub_zero, hv, Option.some_bind, MultiArrays.init]
  refine ⟨?_, ?_, ?_, ?_⟩
  · cases idPatch v <;> simp [hi]
  · cases flagsPatch cvt v <;> simp [hi]
  · cases extPatch indet i v <;> simp [hi]
  · simp

theorem compileMultiCall_idsArg (s : MultiArrays) (n mode : Nat) (p : Option PlatformInfo) :
    (compileMultiCall s n mode p).idsArg = (if s.ids then some s.ids_space else none) ∧
      (compileMultiCall s n mode p).flagsArg =
        (if s.flagss then some s.flagss_space else none) ∧
      (compileMultiCall s n mode p).extArg = (if s.ext then some s.ext_space else none) := by
  unfold compileMultiCall
  cases s.ext <;> simp [EngineCall.idsArg, EngineCall.flagsArg, EngineCall.extArg]

theorem compileMulti_trace (E : Engine) (cvt : StrToInt) (indet : Nat → Nat → Int)
    (arr : List LuaValue) (fields : List (String × LuaValue)) (mode : Nat)
    (platform : Option PlatformInfo) (s : MultiArrays)
    (h : compileMultiArrays cvt indet (.table arr fields) = .ok s) :
    compileMulti E cvt indet (.table arr fields) mode platform =
      (.ok (E.compileReply (compileMultiCall s arr.length mode platform)),
        [compileMultiCall s arr.length mode platform]) := by
  simp [compileMulti, h, compat_rawlen]

/-- C3 amended: for a batch whose marshalling succeeds, the `ids` pointer handed
to the engine is the array `ids_space` when some pattern has an `id` field and
`NULL` otherwise; the array has one entry per pattern, entry `i` being the id
pattern `i` supplies converted to `unsigned int`, which is the id itself when
it lies in `[0, 2^32)`, and `0` for a pattern without `id` (a bare string has
none).  The same holds for the flags array, whose entry is the value `toFlags`
reads from the pattern's `flags`, converted to `unsigned int`. -/
theorem compileMulti_ids_and_flags (E : Engine) (cvt : StrToInt) (indet : Nat → Nat → Int)
    (arr : List LuaValue) (fields : List (String × LuaValue)) (mode : Nat)
    (platform : Option PlatformInfo) (s : MultiArrays)
    (h : compileMultiArrays cvt indet (.table arr fields) = .ok s) :
    (compileMulti E cvt indet (.table arr fields) mode platform).2 =
        [compileMultiCall s arr.length mode platform] ∧
      (compileMultiCall s arr.length mode platform).idsArg =
        (if arr.any (fun v => fieldPresent v "id") then some s.ids_space else none) ∧
      (compileMultiCall s arr.length mode platform).flagsArg =
        (if arr.any (fun v => fieldPresent v "flags") then some s.flagss_space else none) ∧
      s.ids_space.length = arr.length ∧
      s.flagss_space.length = arr.length ∧
      (∀ (i : Nat) v, arr[i]? = some v →
        s.ids_space[i]? =
          some (if fieldPresent v "id" then toUnsigned (suppliedInteger v "id") else 0)) ∧
      (∀ (i : Nat) v, arr[i]? = some v →
        s.flagss_space[i]? =
          some (if fieldPresent v "flags" then toUnsigned (suppliedFlags cvt v) else 0)) ∧
      (∀ (i : Nat) v n, arr[i]? = some v → lua_getfield v "id" = .number n →
        s.ids_space[i]? = some (toUnsigned n) ∧
        (0 ≤ n → n < 4294967296 → (s.ids_space[i]?).map Int.ofNat = some n)) ∧
      (∀ (i : Nat) v n, arr[i]? = some v → lua_getfield v "flags" = .number n →
        s.flagss_space[i]? = some (toUnsigned n) ∧
        (0 ≤ n → n < 4294967296 → (s.flagss_space[i]?).map Int.ofNat = some n)) := by
  have hs := compileMultiArrays_eq cvt indet arr fields s h
  have hargs := compileMultiCall_idsArg s arr.length mode platform
  have hids : s.ids = arr.any (fun v => fieldPresent v "id") := by
    rw [hs, applyPatterns_ids]; simp [MultiArrays.init]
  have hflagss : s.flagss = arr.any (fun v => fieldPresent v "flags") := by
    rw [hs, applyPatterns_flagss]; simp [MultiArrays.init]
  have hidEntry : ∀ (i : Nat) v, arr[i]? = some v →
      s.ids_space[i]? =
        some (if fieldPresent v "id" then toUnsigned (suppliedInteger v "id") else 0) := by
    intro i v hv
    rw [hs, (init_entries cvt indet arr i v hv).1]
    unfold idPatch
    cases fieldPresent v "id" <;> simp
  have hflEntry : ∀ (i : Nat) v, arr[i]? = some v →
      s.flagss_space[i]? =
        some (if fieldPresent v "flags" then toUnsigned (suppliedFlags cvt v) else 0) := by
    intro i v hv
    rw [hs, (init_entries cvt indet arr i v hv).2.1]
    unfold flagsPatch
    cases fieldPresent v "flags" <;> simp
  refine ⟨?_, ?_, ?_, ?_, ?_, hidEntry, hflEntry, ?_, ?_⟩
  · rw [compileMulti_trace E cvt indet arr fields mode platform s h]
  · rw [hargs.1, hids]
  · rw [hargs.2.1, hflagss]
  · rw [hs, applyPatterns_ids_space, patchWith_length]; simp [MultiArrays.init]
  · rw [hs, applyPatterns_flagss_space, patchWith_length]; simp [MultiArrays.init]
  · intro i v n hv hn
    have hp : fieldPresent v "id" = true := by simp [fieldPresent, hn, lua_type]
    have hsup : suppliedInteger v "id" = n := by simp [suppliedInteger, hn]
    rw [hidEntry i v hv, hp, hsup]
    refine ⟨by simp, fun h0 h1 => ?_⟩
    simp only [if_true, Option.map_some', Int.ofNat_eq_coe, toUnsigned_of_lt h0 h1]
  · intro i v n hv hn
    have hp : fieldPresent v "flags" = true := by simp [fieldPresent, hn, lua_type]
    have hsup : suppliedFlags cvt v = toInt n := by simp [suppliedFlags, hn, toFlags]
    rw [hflEntry i v hv, hp, hsup, toUnsigned_toInt]
    refine ⟨by simp, fun h0 h1 => ?_⟩
    simp only [if_true, Option.map_some', Int.ofNat_eq_coe, toUnsigned_of_lt h0 h1]

theorem extFlags_bits (a b c : Option Int) :
    (extFlags a b c &&& HS_EXT_FLAG_MIN_OFFSET ≠ 0 ↔ a.isSome = true) ∧
      (extFlags a b c &&& HS_EXT_FLAG_MAX_OFFSET ≠ 0 ↔ b.isSome = true) ∧
      (extFlags a b c &&& HS_EXT_FLAG_MIN_LENGTH ≠ 0 ↔ c.isSome = true) ∧
      extFlags a b c < 8 := by
  cases a <;> cases b <;> cases c <;>
    simp [extFlags, HS_EXT_FLAG_MIN_OFFSET, HS_EXT_FLAG_MAX_OFFSET, HS_EXT_FLAG_MIN_LENGTH] <;>
    decide

theorem constraintLocal_number (v : LuaValue) (name : String) (u n : Int)
    (hn : lua_getfield v name = .number n) : constraintLocal v name u = toInt n := by
  simp [constraintLocal, fieldPresent, suppliedInteger, hn, lua_type]

/-- C4: in the multi-expression path (no `expression`, `expressions` a batch
whose marshalling succeeds), `compile` calls exactly one compile primitive,
once: `hs_compile_ext_multi` when some pattern of the batch has one of
`min_offset`, `max_offset`, `min_length`, and `hs_compile_multi` otherwise, in
both cases with the same expressions, flags, ids, element count, mode and
platform. -/
theorem compile_multi_entry_point (E : Engine) (cvt : StrToInt) (indet : Nat → Nat → Int)
    (arg1 : LuaValue) (arr : List LuaValue) (fields : List (String × LuaValue)) (mode : Int)
    (platform : Option PlatformInfo) (s : MultiArrays)
    (htab : lua_type arg1 = .LUA_TTABLE)
    (hmode : toMode (lua_getfield arg1 "mode") = .ok mode)
    (hplat : toPlatform cvt (lua_getfield arg1 "platform") = .ok platform)
    (hexpr : lua_type (lua_getfield arg1 "expression") = .LUA_TNIL)
    (hexprs : lua_getfield arg1 "expressions" = .table arr fields)
    (h : compileMultiArrays cvt indet (.table arr fields) = .ok s) :
    (compile E cvt indet arg1).2.filter EngineCall.isCompile =
        [compileMultiCall s arr.length (toUnsigned mode) platform] ∧
      compileMultiCall s arr.length (toUnsigned mode) platform =
        (if arr.any hasConstraint then
          .hs_compile_ext_multi s.expressions
            (if s.flagss then some s.flagss_space else none)
            (if s.ids then some s.ids_space else none)
            s.ext_space arr.length (toUnsigned mode) platform
        else
          .hs_compile_multi s.expressions
            (if s.flagss then some s.flagss_space else none)
            (if s.ids then some s.ids_space else none)
            arr.length (toUnsigned mode) platform) ∧
      s.expressions.length = arr.length ∧
      (∀ (i : Nat) v, arr[i]? = some v → s.expressions[i]? = some (expressionOf v)) := by
  have hs := compileMultiArrays_eq cvt indet arr fields s h
  have hext : s.ext = arr.any hasConstraint := by
    rw [hs, applyPatterns_ext]; simp [MultiArrays.init]
  refine ⟨?_, ?_, ?_, ?_⟩
  · have hc := compileMultiCall_isCompile s arr.length (toUnsigned mode) platform
    unfold compile
    rw [if_neg (by simp [htab])]
    simp only [hmode, hplat]
    rw [if_neg (by simp [hexpr]), if_pos (by simp [hexprs, lua_type]), hexprs,
      compileMulti_trace E cvt indet arr fields (toUnsigned mode) platform s h]
    simp only [compileFinish]
    split
    · cases hce : (E.compileReply
          (compileMultiCall s arr.length (toUnsigned mode) platform)).compile_err with
      | none => simp [throwCompileError, hc]
      | some ce =>
        have hf : (EngineCall.hs_free_compile_error ce).isCompile = false := rfl
        simp only [throwCompileError]
        split <;> simp [List.filter, hc, hf]
    · simp [hc]
  · unfold compileMultiCall
    rw [← hext]
  · rw [hs, applyPatterns_expressions, patchWith_length]; simp [MultiArrays.init]
  · intro i v hv
    rw [hs, (init_entries cvt indet arr i v hv).2.2.2]

/-- C10 amended: for a batch whose marshalling succeeds, the `ext` pointer
handed over is the array `ext_space` when some pattern has a constraint field;
its entry `i` is `NULL` when pattern `i` has none of the three fields (a bare
string has none) and otherwise a record whose `flags` has the `MIN_OFFSET`,
`MAX_OFFSET`, `MIN_LENGTH` bit set exactly for the fields pattern `i` has, no
other bit, and whose field for each present constraint holds the supplied
number converted to C `int` and from there to `unsigned long long`, which is
the number itself when it lies in `[0, 2^31)`. -/
theorem compileMulti_ext_records (cvt : StrToInt) (indet : Nat → Nat → Int)
    (arr : List LuaValue) (fields : List (String × LuaValue)) (mode : Nat)
    (platform : Option PlatformInfo) (s : MultiArrays)
    (h : compileMultiArrays cvt indet (.table arr fields) = .ok s) :
    (compileMultiCall s arr.length mode platform).extArg =
        (if arr.any hasConstraint then some s.ext_space else none) ∧
      s.ext_space.length = arr.length ∧
      (∀ (i : Nat) v, arr[i]? = some v → hasConstraint v = false →
        s.ext_space[i]? = some none) ∧
      (∀ (i : Nat) v, arr[i]? = some v → hasConstraint v = true →
        ∃ r, s.ext_space[i]? = some (some r) ∧
          (r.flags &&& HS_EXT_FLAG_MIN_OFFSET ≠ 0 ↔ fieldPresent v "min_offset" = true) ∧
          (r.flags &&& HS_EXT_FLAG_MAX_OFFSET ≠ 0 ↔ fieldPresent v "max_offset" = true) ∧
          (r.flags &&& HS_EXT_FLAG_MIN_LENGTH ≠ 0 ↔ fieldPresent v "min_length" = true) ∧
          r.flags < 8 ∧
          (fieldPresent v "min_offset" = true →
            ∃ n, lua_getfield v "min_offset" = .number n ∧
              r.min_offset = toUnsignedLongLong (toInt n) ∧
              (0 ≤ n → n < 2147483648 → (r.min_offset : Int) = n)) ∧
          (fieldPresent v "max_offset" = true →
            ∃ n, lua_getfield v "max_offset" = .number n ∧
              r.max_offset = toUnsignedLongLong (toInt n) ∧
              (0 ≤ n → n < 2147483648 → (r.max_offset : Int) = n)) ∧
          (fieldPresent v "min_length" = true →
            ∃ n, lua_getfield v "min_length" = .number n ∧
              r.min_length = toUnsignedLongLong (toInt n) ∧
              (0 ≤ n → n < 2147483648 → (r.min_length : Int) = n))) := by
  have hs := compileMultiArrays_eq cvt indet arr fields s h
  have hnum := compileMultiLoop_numbers cvt indet arr 0 _ s h
  have hext : s.ext = arr.any hasConstraint := by
    rw [hs, applyPatterns_ext]; simp [MultiArrays.init]
  refine ⟨?_, ?_, ?_, ?_⟩
  · rw [(compileMultiCall_idsArg s arr.length mode platform).2.2, hext]
  · rw [hs, applyPatterns_ext_space, patchWith_length]; simp [MultiArrays.init]
  · intro i v hv hc
    rw [hs, (init_entries cvt indet arr i v hv).2.2.1]
    simp [extPatch, hc]
  · intro i v hv hc
    have hmem : v ∈ arr := List.mem_iff_getElem?.2 ⟨i, hv⟩
    have hb := extFlags_bits (constraintField v "min_offset") (constraintField v "max_offset")
      (constraintField v "min_length")
    simp only [constraintField_isSome] at hb
    refine ⟨{ flags := extFlags (constraintField v "min_offset")
                (constraintField v "max_offset") (constraintField v "min_length")
              min_offset := toUnsignedLongLong (constraintLocal v "min_offset" (indet i 0))
              max_offset := toUnsignedLongLong (constraintLocal v "max_offset" (indet i 1))
              min_length := toUnsignedLongLong (constraintLocal v "min_length" (indet i 2)) },
      ?_, hb.1, hb.2.1, hb.2.2.1, hb.2.2.2, ?_, ?_, ?_⟩
    · rw [hs, (init_entries cvt indet arr i v hv).2.2.1]
      simp only [extPatch, hc, if_true, Option.getD_some]
    · intro hp
      obtain ⟨n, hn⟩ := hnum v hmem "min_offset" (by simp) hp
      refine ⟨n, hn, ?_, ?_⟩
      · simp only [constraintLocal_number v _ _ n hn]
      · intro h0 h1
        simp only [constraintLocal_number v _ _ n hn]
        exact toUnsignedLongLong_toInt_of_lt h0 h1
    · intro hp
      obtain ⟨n, hn⟩ := hnum v hmem "max_offset" (by simp) hp
      refine ⟨n, hn, ?_, ?_⟩
      · simp only [constraintLocal_number v _ _ n hn]
      · intro h0 h1
        simp only [constraintLocal_number v _ _ n hn]
        exact toUnsignedLongLong_toInt_of_lt h0 h1
    · intro hp
      obtain ⟨n, hn⟩ := hnum v hmem "min_length" (by simp) hp
      refine ⟨n, hn, ?_, ?_⟩
      · simp only [constraintLocal_number v _ _ n hn]
      · intro h0 h1
        simp only [constraintLocal_number v _ _ n hn]
        exact toUnsignedLongLong_toInt_of_lt h0 h1

/-- C3 as stated fails: a pattern that supplies `id = 4294967301` has the
entry `5` in the ids array handed to the engine. -/
theorem compileMulti_wide_id_counterexample :
    suppliedInteger (.table [] [("expression", .string "a"), ("id", .number 4294967301)])
        "id" = 4294967301 ∧
      (compileMulti demoEngine demoCvt demoIndet
          (.table [.table [] [("expression", .string "a"), ("id", .number 4294967301)]] [])
          1 none).2 =
        [.hs_compile_multi ["a"] none (some [5]) 1 1 none] := by
  decide

/-- Witness for C3 amended on `demoBatch`. -/
theorem compileMulti_ids_and_flags_witness :
    compileMultiArrays demoCvt demoIndet (.table demoBatch []) = .ok demoArrays ∧
    ((compileMulti demoEngine demoCvt demoIndet (.table demoBatch ([] : List (String × LuaValue))) 1 (none : Option PlatformInfo)).2 =
        [compileMultiCall demoArrays demoBatch.length 1 (none : Option PlatformInfo)] ∧
      (compileMultiCall demoArrays demoBatch.length 1 (none : Option PlatformInfo)).idsArg =
        (if demoBatch.any (fun v => fieldPresent v "id") then some demoArrays.ids_space else none) ∧
      (compileMultiCall demoArrays demoBatch.length 1 (none : Option PlatformInfo)).flagsArg =
        (if demoBatch.any (fun v => fieldPresent v "flags") then some demoArrays.flagss_space else none) ∧
      demoArrays.ids_space.length = demoBatch.length ∧
      demoArrays.flagss_space.length = demoBatch.length ∧
      (∀ (i : Nat) v, demoBatch[i]? = some v →
        demoArrays.ids_space[i]? =
          some (if fieldPresent v "id" then toUnsigned (suppliedInteger v "id") else 0)) ∧
      (∀ (i : Nat) v, demoBatch[i]? = some v →
        demoArrays.flagss_space[i]? =
          some (if fieldPresent v "flags" then toUnsigned (suppliedFlags demoCvt v) else 0)) ∧
      (∀ (i : Nat) v n, demoBatch[i]? = some v → lua_getfield v "id" = .number n →
        demoArrays.ids_space[i]? = some (toUnsigned n) ∧
        (0 ≤ n → n < 4294967296 → (demoArrays.ids_space[i]?).map Int.ofNat = some n)) ∧
      (∀ (i : Nat) v n, demoBatch[i]? = some v → lua_getfield v "flags" = .number n →
        demoArrays.flagss_space[i]? = some (toUnsigned n) ∧
        (0 ≤ n → n < 4294967296 → (demoArrays.flagss_space[i]?).map Int.ofNat = some n))) :=
  ⟨by decide,
    compileMulti_ids_and_flags demoEngine demoCvt demoIndet demoBatch [] 1 none demoArrays
      (by decide)⟩

/-- Witness for C4 on `demoRequest`. -/
theorem compile_multi_entry_point_witness :
    compileMultiArrays demoCvt demoIndet (.table demoBatch []) = .ok demoArrays ∧
    ((compile demoEngine demoCvt demoIndet demoRequest).2.filter EngineCall.isCompile =
        [compileMultiCall demoArrays demoBatch.length (toUnsigned 1) (none : Option PlatformInfo)] ∧
      compileMultiCall demoArrays demoBatch.length (toUnsigned 1) (none : Option PlatformInfo) =
        (if demoBatch.any hasConstraint then
          .hs_compile_ext_multi demoArrays.expressions
            (if demoArrays.flagss then some demoArrays.flagss_space else none)
            (if demoArrays.ids then some demoArrays.ids_space else none)
            demoArrays.ext_space demoBatch.length (toUnsigned 1) (none : Option PlatformInfo)
        else
          .hs_compile_multi demoArrays.expressions
            (if demoArrays.flagss then some demoArrays.flagss_space else none)
            (if demoArrays.ids then some demoArrays.ids_space else none)
            demoBatch.length (toUnsigned 1) (none : Option PlatformInfo)) ∧
      demoArrays.expressions.length = demoBatch.length ∧
      (∀ (i : Nat) v, demoBatch[i]? = some v → demoArrays.expressions[i]? = some (expressionOf v))) :=
  ⟨by decide,
    compile_multi_entry_point demoEngine demoCvt demoIndet demoRequest demoBatch [] 1 none
      demoArrays (by decide) (by decide) (by decide) (by decide) rfl (by decide)⟩

/-- C10 as stated fails: a pattern that supplies `min_offset = 4294967296`
gets a record with the `MIN_OFFSET` bit set whose `min_offset` holds `0`. -/
theorem compileMulti_wide_constraint_counterexample :
    suppliedInteger
        (.table [] [("expression", .string "a"), ("min_offset", .number 4294967296)])
        "min_offset" = 4294967296 ∧
      compileMultiArrays demoCvt (fun _ _ => 7)
          (.table [.table [] [("expression", .string "a"),
            ("min_offset", .number 4294967296)]] []) =
        .ok { expressions := ["a"], ids_space := [0], flagss_space := [0],
              ext_space := [some ⟨1, 0, 7, 7⟩], ids := false, flagss := false, ext := true } := by
  decide

/-- Witness for C10 amended on `demoBatch`. -/
theorem compileMulti_ext_records_witness :
    compileMultiArrays demoCvt demoIndet (.table demoBatch []) = .ok demoArrays ∧
    ((compileMultiCall demoArrays demoBatch.length 1 (none : Option PlatformInfo)).extArg =
        (if demoBatch.any hasConstraint then some demoArrays.ext_space else none) ∧
      demoArrays.ext_space.length = demoBatch.length ∧
      (∀ (i : Nat) v, demoBatch[i]? = some v → hasConstraint v = false →
        demoArrays.ext_space[i]? = some none) ∧
      (∀ (i : Nat) v, demoBatch[i]? = some v → hasConstraint v = true →
        ∃ r, demoArrays.ext_space[i]? = some (some r) ∧
          (r.flags &&& HS_EXT_FLAG_MIN_OFFSET ≠ 0 ↔ fieldPresent v "min_offset" = true) ∧
          (r.flags &&& HS_EXT_FLAG_MAX_OFFSET ≠ 0 ↔ fieldPresent v "max_offset" = true) ∧
          (r.flags &&& HS_EXT_FLAG_MIN_LENGTH ≠ 0 ↔ fieldPresent v "min_length" = true) ∧
          r.flags < 8 ∧
          (fieldPresent v "min_offset" = true →
            ∃ n, lua_getfield v "min_offset" = .number n ∧
              r.min_offset = toUnsignedLongLong (toInt n) ∧
              (0 ≤ n → n < 2147483648 → (r.min_offset : Int) = n)) ∧
          (fieldPresent v "max_offset" = true →
            ∃ n, lua_getfield v "max_offset" = .number n ∧
              r.max_offset = toUnsignedLongLong (toInt n) ∧
              (0 ≤ n → n < 2147483648 → (r.max_offset : Int) = n)) ∧
          (fieldPresent v "min_length" = true →
            ∃ n, lua_getfield v "min_length" = .number n ∧
              r.min_length = toUnsignedLongLong (toInt n) ∧
              (0 ≤ n → n < 2147483648 → (r.min_length : Int) = n)))) :=
  ⟨by decide,
    compileMulti_ext_records demoCvt demoIndet demoBatch [] 1 none demoArrays (by decide)⟩

end Luahs
